import Mathlib

/-!
Verification development for the `ire-leads-bot` repository (single source file
`main.py`): a chat bot that parses free-text lead submissions into a fixed
32-column row of a tabular store, validates and auto-enriches them, and then
drives a button/text editing workflow over the stored row.

The development shallowly embeds the pure core of `main.py`:
the regex-based field extraction (`FIELD_PATTERNS` / `parse_lead_text`),
the validators (`validate_phone`, `validate_email`), the phone-prefix
inference (`guess_tz_by_phone`, `guess_region_by_phone`), the menu renderer
(`show_main_menu`), and the conversation handlers (`process_lead`,
`handle_button`, `handle_text_input`), with the Google-Sheets store modelled
as a list of rows plus an explicit failure oracle standing for the
`try/except` blocks around each store operation.

Python regular-expression semantics are embedded by hand for the exact
patterns appearing in `FIELD_PATTERNS`: each pattern is compiled into a
deterministic matcher whose greedy/backtracking behaviour is reproduced
explicitly (and justified in the comment next to each matcher).  Character
classes are restricted to the ASCII and Cyrillic ranges the program
manipulates; Python treats further Unicode letters/digits as members of
`\w`/`\d`/`\s`, which are outside the alphabet exercised by the program and
the claims.
-/

/-! ## Character classes and Python string helpers -/

/-- Python whitespace class `\s` (and the character set of `str.strip`),
restricted to the ASCII whitespace characters: space, tab, newline,
carriage return, vertical tab, form feed. -/
def isPySpace (c : Char) : Bool :=
  c.toNat = 32 || c.toNat = 9 || c.toNat = 10 || c.toNat = 13 ||
  c.toNat = 11 || c.toNat = 12

/-- Python digit class `\d`, restricted to ASCII digits. -/
def isPyDigit (c : Char) : Bool :=
  48 ≤ c.toNat && c.toNat ≤ 57

/-- Python word class `\w`, restricted to ASCII alphanumerics, underscore and
the Cyrillic alphabet (А-Яа-яЁё). -/
def isPyWord (c : Char) : Bool :=
  isPyDigit c || (97 ≤ c.toNat && c.toNat ≤ 122) || (65 ≤ c.toNat && c.toNat ≤ 90) ||
  c.toNat = 95 || (0x410 ≤ c.toNat && c.toNat ≤ 0x44F) || c.toNat = 0x401 ||
  c.toNat = 0x451

/-- Per-character lowercasing as performed by Python `str.lower` and by
`re.IGNORECASE` matching, covering the Latin and Cyrillic alphabets used by
the program (`A-Z` and `А-ЯЁ`). -/
def pyLower (c : Char) : Char :=
  if 65 ≤ c.toNat ∧ c.toNat ≤ 90 then Char.ofNat (c.toNat + 32)
  else if 0x410 ≤ c.toNat ∧ c.toNat ≤ 0x42F then Char.ofNat (c.toNat + 32)
  else if c.toNat = 0x401 then Char.ofNat 0x451
  else c

/-- Python `str.lower`. -/
def pyLowerStr (s : String) : String := ⟨s.data.map pyLower⟩

/-- Python `str.strip` on a character list: drop whitespace from both ends. -/
def pyStripL (l : List Char) : List Char :=
  ((l.dropWhile isPySpace).reverse.dropWhile isPySpace).reverse

/-- Python `str.strip`. -/
def pyStripStr (s : String) : String := ⟨pyStripL s.data⟩

/-- Python `str.split(sep)` for a one-character separator: split on every
occurrence, keeping empty segments. -/
def splitCharL (sep : Char) : List Char → List (List Char)
  | [] => [[]]
  | c :: cs =>
    let r := splitCharL sep cs
    if c = sep then [] :: r
    else
      match r with
      | h :: t => (c :: h) :: t
      | [] => [[c]]

/-- Python `str.split(sep)` for a one-character separator. -/
def pySplit (sep : Char) (s : String) : List String :=
  (splitCharL sep s.data).map (fun l => ⟨l⟩)

/-- Decimal value of a digit run (used to model Python `int`). -/
def digitsToNat : List Char → Nat → Nat
  | [], acc => acc
  | c :: cs, acc => digitsToNat cs (acc * 10 + (c.toNat - 48))

/-- Python `int(s)` on the strings the bot round-trips through callback data:
a non-empty all-digit string parses to its value, anything else raises
(`none`).  (Python `int` additionally accepts signs and surrounding
whitespace; a negative or otherwise exotic index would in any case fail at
the store boundary, which is outside the behaviour exercised here.) -/
def pyParseNat (s : String) : Option Nat :=
  if s.data ≠ [] ∧ s.data.all isPyDigit then some (digitsToNat s.data 0) else none

/-- Python `str.startswith`. -/
def pyStartsWith (s pre : String) : Bool :=
  pre.data.isPrefixOf s.data

/-! ## Hand-compiled matchers for the `FIELD_PATTERNS` regexes

`re.search(pat, text)` tries to match `pat` at every position of `text`,
left to right, and returns the first match.  All patterns below begin with a
(case-insensitive) literal label, so `searchFrom` scans positions and applies
the pattern-specific matcher at each suffix. -/

/-- Match a literal (under `re.IGNORECASE`) at the head of the input,
returning the rest. -/
def stripCI : List Char → List Char → Option (List Char)
  | [], s => some s
  | _ :: _, [] => none
  | l :: ls, c :: cs => if pyLower c = pyLower l then stripCI ls cs else none

/-- `re.search` driver: try `matchAt` at every suffix (position), first hit
wins. -/
def searchFrom {α : Type} (matchAt : List Char → Option α) : List Char → Option α
  | [] => matchAt []
  | c :: cs =>
    match matchAt (c :: cs) with
    | some r => some r
    | none => searchFrom matchAt cs

/-- Matcher for `\s*(.+)` (the tail of patterns such as `Имя клиента:\s*(.+)`).
`\s*` is greedy, so the engine first skips the maximal whitespace run (length
`k0`) and tries `(.+)` there; on failure it backtracks one whitespace
character at a time.  `(.+)` succeeds at offset `k` exactly when the
character there is not a newline, and then greedily captures up to the next
newline (nothing follows in the pattern, so no further backtracking).
`dotPlusBack r k` tries offsets `k, k-1, ..., 0`. -/
def dotPlusBack (r : List Char) : Nat → Option (List Char)
  | 0 =>
    match r with
    | c :: _ => if c ≠ '\n' then some (r.takeWhile (fun x => x ≠ '\n')) else none
    | [] => none
  | k+1 =>
    match r.drop (k+1) with
    | c :: _ =>
      if c ≠ '\n' then some ((r.drop (k+1)).takeWhile (fun x => x ≠ '\n'))
      else dotPlusBack r k
    | [] => dotPlusBack r k

/-- `\s*(.+)` after a label: start backtracking from the maximal whitespace
run. -/
def dotGroupAt (s : List Char) : Option (List Char) :=
  dotPlusBack s ((s.takeWhile isPySpace).length)

/-- Matcher for `\s*(\+?\d{6,15})` (tail of the `Телефон:`/`WhatsApp:`
patterns).  Here `\s*` never backtracks: the group must start with `+` or a
digit, which are not whitespace, so only the maximal whitespace skip can
succeed.  `\+?` consuming the `+` is likewise forced: if `+` is present but
fewer than 6 digits follow, retrying with an empty `\+?` immediately fails on
the `+`.  `\d{6,15}` is greedy (up to 15 digits) and nothing follows it in
the pattern. -/
def phoneGroupAt (s0 : List Char) : Option (List Char) :=
  match s0.dropWhile isPySpace with
  | '+' :: rest =>
    if 6 ≤ ((rest.takeWhile isPyDigit).take 15).length then
      some ('+' :: (rest.takeWhile isPyDigit).take 15)
    else none
  | other =>
    if 6 ≤ ((other.takeWhile isPyDigit).take 15).length then
      some ((other.takeWhile isPyDigit).take 15)
    else none

/-- Matcher for `\s*@?(\w+)` (tail of the `Telegram:` pattern); `@` and word
characters are not whitespace, and a consumed `@` cannot be re-matched by
`\w+`, so both options are forced as for the phone pattern. -/
def telegramGroupAt (s0 : List Char) : Option (List Char) :=
  let s := s0.dropWhile isPySpace
  let s1 := if s.head? = some '@' then s.tail else s
  let w := s1.takeWhile isPyWord
  if w = [] then none else some w

/-- One-or-more characters of the email class `[\w\.-]`. -/
def isEmailClass (c : Char) : Bool := isPyWord c || c == '.' || c == '-'

/-- Backtracking for the `[\w\.-]+\.\w+` tail of the email group, after the
`@`.  The first `[\w\.-]+` greedily consumes `j` characters of the maximal
class run and backtracks downwards; `j` succeeds when the character at
offset `j` is a literal `.` followed by at least one `\w` character.  Called
with the maximal class-run length, which is the largest candidate (`\.` can
only sit inside the class run, `.` being a class member). -/
def emailSplitBack (r2 : List Char) : Nat → Option Nat
  | 0 => none
  | j+1 =>
    match r2.drop (j+1) with
    | '.' :: c :: _ => if isPyWord c then some (j+1) else emailSplitBack r2 j
    | _ => emailSplitBack r2 j

/-- The optional group `([\w\.-]+@[\w\.-]+\.\w+)?` of the `Email:` pattern,
tried at the position after the label and the greedy `\s*` skip.  The first
`[\w\.-]+` must end exactly at the first `@` (the class excludes `@`), then
`emailSplitBack` resolves the backtracking of the part after `@`.  If this
group fails, the surrounding pattern still matches with the group absent
(so the caller wraps the result in `Option`). -/
def emailGroupAt (s : List Char) : Option (List Char) :=
  let a := s.takeWhile isEmailClass
  if a = [] then none
  else
    match s.drop a.length with
    | '@' :: r2 =>
      let b := r2.takeWhile isEmailClass
      match emailSplitBack r2 b.length with
      | some j => some (a ++ '@' :: (r2.take j) ++ '.' :: ((r2.drop (j+1)).takeWhile isPyWord))
      | none => none
    | _ => none

/-- Matcher for the whole `Email:\s*([\w\.-]+@[\w\.-]+\.\w+)?` pattern at one
position: once the label matches, the pattern as a whole always succeeds
(the group is optional), so `re.search` stops at the first label occurrence;
the inner `Option` is `match.group(1)`. -/
def emailMatchAt (s : List Char) : Option (Option (List Char)) :=
  (stripCI "Email:".data s).map (fun r => emailGroupAt (r.dropWhile isPySpace))

/-- Matcher for `Paym?ent\s*method:\s*(.+)`: literal `Pay`, optional `m`
(greedy, with backtracking to the empty option), literal `ent`, greedy `\s*`
(exact, since `m` is not whitespace), literal `method:`, then the usual
`\s*(.+)` tail. -/
def paymentMatchAt (s : List Char) : Option (List Char) :=
  (stripCI "Pay".data s).bind fun s1 =>
    let tryTail := fun (t : List Char) =>
      (stripCI "ent".data t).bind fun t1 =>
        (stripCI "method:".data (t1.dropWhile isPySpace)).bind dotGroupAt
    match s1 with
    | c :: cs =>
      if pyLower c = 'm' then
        match tryTail cs with
        | some g => some g
        | none => tryTail s1
      else tryTail s1
    | [] => tryTail s1

/-- The common `FieldName:\s*(group)` pattern shape. -/
def labelMatchAt (label : String) (groupAt : List Char → Option (List Char))
    (s : List Char) : Option (List Char) :=
  (stripCI label.data s).bind groupAt

/-- One extraction step of `parse_lead_text`: `regex.search(text)`, then
Python `if match and match.group(1): lead[f] = raw.strip() else: lead[f] = ""`. -/
def extractWith (matchAt : List Char → Option (List Char)) (text : List Char) : String :=
  match searchFrom matchAt text with
  | some g => if g = [] then "" else ⟨pyStripL g⟩
  | none => ""

/-! ## `parse_lead_text` and the validators -/

/-- The dictionary produced by `parse_lead_text`; field order and the
originating keys follow `FIELD_PATTERNS`:
`clientName` = "Имя клиента", `phone` = "Телефон", `telegram` = "Telegram",
`whatsapp` = "WhatsApp", `email` = "Email", `messenger` = "Мессенджер",
`purpose` = "Purpose", `payment` = "Payment method", `utm` = "UTM",
`project` = "Project", `region` = "Region". -/
structure LeadData where
  clientName : String
  phone : String
  telegram : String
  whatsapp : String
  email : String
  messenger : String
  purpose : String
  payment : String
  utm : String
  project : String
  region : String
deriving Repr, DecidableEq

/-- `parse_lead_text(text)`: run each `FIELD_PATTERNS` regex over the text;
a missing match or an empty/absent group yields the empty string. -/
def parse_lead_text (text : String) : LeadData :=
  let t := text.data
  ⟨extractWith (labelMatchAt "Имя клиента:" dotGroupAt) t,
   extractWith (labelMatchAt "Телефон:" phoneGroupAt) t,
   extractWith (labelMatchAt "Telegram:" telegramGroupAt) t,
   extractWith (labelMatchAt "WhatsApp:" phoneGroupAt) t,
   (match searchFrom emailMatchAt t with
    | some (some g) => if g = [] then "" else ⟨pyStripL g⟩
    | some none => ""
    | none => ""),
   extractWith (labelMatchAt "Мессенджер:" dotGroupAt) t,
   extractWith (labelMatchAt "Purpose:" dotGroupAt) t,
   extractWith paymentMatchAt t,
   extractWith (labelMatchAt "UTM:" dotGroupAt) t,
   extractWith (labelMatchAt "Project:" dotGroupAt) t,
   extractWith (labelMatchAt "Region:" dotGroupAt) t⟩

/-- `validate_phone(phone)`: `re.match(r'^\+?\d{6,15}$', phone)` (empty
strings pass).  `re.match` anchors at the start; `$` accepts the end of the
string or a single trailing newline.  The greedy `\d{6,15}` collapses to the
maximal digit run: backtracking to fewer digits leaves a digit (never `$`)
as the next character, and a present `+` cannot be re-matched by `\d`. -/
def validate_phone (phone : String) : Bool :=
  if phone = "" then true
  else
    let l := phone.data
    let l1 := if l.head? = some '+' then l.tail else l
    let ds := l1.takeWhile isPyDigit
    let rest := l1.drop ds.length
    decide (6 ≤ ds.length) && decide (ds.length ≤ 15) &&
      (rest == ([] : List Char) || rest == ['\n'])

/-- Backtracking for the `[^@]+\.[^@]+` tail of `validate_email`, after the
`@`: some split point `j ≥ 1` inside the (maximal) `@`-free run must carry a
literal `.` followed by at least one further non-`@` character. -/
def emailDotBack (r2 : List Char) : Nat → Bool
  | 0 => false
  | j+1 =>
    (match r2.drop (j+1) with
     | '.' :: c :: _ => !(c == '@')
     | _ => false) ||
    emailDotBack r2 j

/-- `validate_email(email)`: `re.match(r"[^@]+@[^@]+\.[^@]+", email)` (empty
strings pass; the match is unanchored at the right).  The first `[^@]+` must
end exactly at the first `@`. -/
def validate_email (email : String) : Bool :=
  if email = "" then true
  else
    let l := email.data
    let a := l.takeWhile (fun c => !(c == '@'))
    match l.drop a.length with
    | '@' :: r2 =>
      decide (1 ≤ a.length) &&
        emailDotBack r2 ((r2.takeWhile (fun c => !(c == '@'))).length)
    | _ => false

/-! ## Phone-prefix auto-inference -/

/-- `COUNTRY_TZ_MAP`, listed in Python iteration order after
`sorted(COUNTRY_TZ_MAP.keys(), key=len, reverse=True)` — the stable sort of
the insertion order `["34", "7", "1"]` by descending length, which is
`["34", "7", "1"]` itself. -/
def COUNTRY_TZ_MAP : List (String × String) :=
  [("34", "GMT+1"), ("7", "GMT+3"), ("1", "GMT-5")]

/-- `guess_tz_by_phone(phone)`: no leading `+` gives the sentinel, otherwise
the first (longest) table prefix of `phone[1:]` wins. -/
def guess_tz_by_phone (phone : String) : String :=
  if ¬ pyStartsWith phone "+" then "Другой"
  else
    let digits : String := ⟨phone.data.drop 1⟩
    match COUNTRY_TZ_MAP.find? (fun kv => pyStartsWith digits kv.1) with
    | some kv => kv.2
    | none => "Другой"

/-- `guess_region_by_phone(phone)`: literal if-chain over the prefixes
`"34"`, `"7"`, `"1"` of `phone[1:]`. -/
def guess_region_by_phone (phone : String) : String :=
  if ¬ pyStartsWith phone "+" then "Unknown"
  else
    let digits : String := ⟨phone.data.drop 1⟩
    if pyStartsWith digits "34" then "Spain"
    else if pyStartsWith digits "7" then "Russia"
    else if pyStartsWith digits "1" then "USA"
    else "Unknown"

/-- The prefix→region table realised by `guess_region_by_phone`'s if-chain
(in tested order, which is descending prefix length). -/
def REGION_PREFIX_MAP : List (String × String) :=
  [("34", "Spain"), ("7", "Russia"), ("1", "USA")]

/-! ## Field tables -/

/-- `FIELD_TO_COL` as a total function; a code outside the table yields `0`,
matching `FIELD_TO_COL.get(field_code)`/`.get(code, 0)` being falsy. -/
def FIELD_TO_COL : String → Nat
  | "notes" => 12
  | "src" => 13
  | "tz" => 14
  | "msg_avail" => 15
  | "seg" => 16
  | "ip_call" => 18
  | "alt_phone_yesno" => 19
  | "pers_phone_yesno" => 20
  | "msg_touch" => 21
  | "meet_postpone" => 22
  | "progress" => 23
  | "interest" => 24
  | "crm_result" => 25
  | "task_repeat" => 26
  | "budget" => 27
  | "goal" => 28
  | "prefs" => 29
  | "vid_call" => 30
  | "send_mat" => 31
  | "messenger_call" => 32
  | _ => 0

/-- `OPTIONS_MAP`: option sets per enrichable field, in insertion order. -/
def OPTIONS_MAP : String → Option (List (String × String))
  | "src" => some [("tg", "Telegram"), ("other", "Другой")]
  | "tz" => some [("gmt3", "GMT+3"), ("other", "Другой")]
  | "msg_avail" => some [("tg", "Telegram"), ("wa", "WhatsApp"), ("vb", "Viber"),
      ("ln", "Line"), ("none", "Нет")]
  | "seg" => some [("buyer", "покупатель"), ("investor", "инвестор")]
  | "ip_call" => some [("yes", "Да"), ("no", "Нет")]
  | "alt_phone_yesno" => some [("yes", "Да"), ("no", "Нет")]
  | "pers_phone_yesno" => some [("yes", "Да"), ("no", "Нет")]
  | "meet_postpone" => some [("earlier", "Да, контактировать на день раньше"), ("no", "Нет")]
  | "vid_call" => some [("yes", "Да"), ("no", "Нет")]
  | "send_mat" => some [("yes", "Да"), ("no", "Нет")]
  | "progress" => some [("details", "Прогрев: согласие на детали"), ("transfer", "Прогрев: перенос")]
  | "interest" => some [("high", "Высокий"), ("med", "Средний"), ("low", "Низкий")]
  | "crm_result" => some [("success", "Успех"), ("fail", "Неудача"), ("repeat", "Повтор касания")]
  | "task_repeat" => some [("yes", "Да"), ("no", "Нет")]
  | "messenger_call" => some [("yes", "Да"), ("no", "Нет")]
  | _ => none

/-- `OPTIONS_MAP[field_code][short_code]`, `none` when either is missing
(the `field_code not in OPTIONS_MAP or short_code not in OPTIONS_MAP[...]`
test in `handle_button`). -/
def optionsLookup (fieldCode shortCode : String) : Option String :=
  (OPTIONS_MAP fieldCode).bind (fun l => (l.find? (fun kv => kv.1 = shortCode)).map (fun kv => kv.2))

/-! ## The store model

The Google Sheet is a list of rows (row 1 = the header), addressed with
1-indexed row/column numbers as by `gspread`.  `sheet.cell(r, c).value or ""`
returns `""` for an empty or absent cell.  Store faults (the `except`
branches around `sheet.cell`, `sheet.update_cell`, `sheet.append_row` and
`sheet.row_values`) are modelled by a failure oracle over the operations. -/

structure Sheet where
  rows : List (List String)
deriving Repr, DecidableEq

/-- A single store operation, for the failure oracle. -/
inductive StoreOp where
  | readCell (r c : Nat)
  | writeCell (r c : Nat) (v : String)
  | appendRow (vals : List String)
  | readRow (r : Nat)

/-- Which store operations raise; `noFail` is the fault-free store. -/
def FailOracle : Type := StoreOp → Bool

def noFail : FailOracle := fun _ => false

/-- `sheet.cell(r, c).value or ""` (1-indexed). -/
def Sheet.cellVal (s : Sheet) (r c : Nat) : String :=
  match s.rows.get? (r - 1) with
  | some row => (row.get? (c - 1)).getD ""
  | none => ""

/-- `sheet.row_values(r)` (1-indexed). -/
def Sheet.rowVals (s : Sheet) (r : Nat) : List String :=
  (s.rows.get? (r - 1)).getD []

/-- Write into a list at 0-indexed position `i`, padding with `dflt` as
needed. -/
def setPad {α : Type} (dflt : α) : List α → Nat → α → List α
  | [], 0, v => [v]
  | [], n+1, v => dflt :: setPad dflt [] n v
  | _ :: t, 0, v => v :: t
  | h :: t, n+1, v => h :: setPad dflt t n v

/-- `sheet.update_cell(r, c, v)` (1-indexed).  Indices `0` would raise in
`gspread`; the claims only exercise cells of existing rows. -/
def Sheet.updateCell (s : Sheet) (r c : Nat) (v : String) : Sheet :=
  if r = 0 ∨ c = 0 then s
  else
    let row := (s.rows.get? (r - 1)).getD []
    ⟨setPad [] s.rows (r - 1) (setPad "" row (c - 1) v)⟩

/-- `sheet.append_row(vals)`. -/
def Sheet.appendRow (s : Sheet) (vals : List String) : Sheet :=
  ⟨s.rows ++ [vals]⟩

/-! ## The menu renderer (`show_main_menu`) -/

/-- One inline keyboard button: display label and callback data. -/
structure Btn where
  label : String
  callback : String
deriving Repr, DecidableEq

/-- The `get_val` helper of `show_main_menu`:
`(row_vals[col-1] or "").strip().lower()`, with out-of-range columns giving
`""`.  (`gspread` trims trailing empty cells from `row_values`; for such
columns the source's range check and an empty stored cell coincide on
`""`.) -/
def get_val (rowVals : List String) (fieldCode : String) : String :=
  let col := FIELD_TO_COL fieldCode
  if col < 1 ∨ rowVals.length < col then ""
  else pyLowerStr (pyStripStr ((rowVals.get? (col - 1)).getD ""))

/-- The inline keyboard built by `show_main_menu` from the row values read
from the store.  Each `InlineKeyboardButton(f"... {icon}", callback_data=...)`
becomes a `Btn` whose label is the literal prefix concatenated with the icon
(`"✅"`/`"❌"`); the icon conditions are transcribed verbatim. -/
def buildMenu (rowVals : List String) (rowIndex : Nat) : List (List Btn) :=
  let r := toString rowIndex
  let src_val := get_val rowVals "src"
  let tg_icon := if src_val = "telegram" then "✅" else "❌"
  let other_icon := if src_val = "другой" then "✅" else "❌"
  let ma_v := get_val rowVals "msg_avail"
  let icon2 := fun (x : String) => if ma_v = pyLowerStr x then "✅" else "❌"
  let seg_v := get_val rowVals "seg"
  let buy_icon := if seg_v = "покупатель" then "✅" else "❌"
  let inv_icon := if seg_v = "инвестор" then "✅" else "❌"
  let ipcall := get_val rowVals "ip_call"
  let yes_icon := if ipcall = "да" then "✅" else "❌"
  let no_icon := if ipcall = "нет" then "✅" else "❌"
  let alt_v := get_val rowVals "alt_phone_yesno"
  let alt_yes := if alt_v = "да" then "✅" else "❌"
  let alt_no := if alt_v = "нет" then "✅" else "❌"
  let per_v := get_val rowVals "pers_phone_yesno"
  let per_yes := if per_v = "да" then "✅" else "❌"
  let per_no := if per_v = "нет" then "✅" else "❌"
  let mc_v := get_val rowVals "messenger_call"
  let mc_yes := if mc_v = "да" then "✅" else "❌"
  let mc_no := if mc_v = "нет" then "✅" else "❌"
  let meet_v := get_val rowVals "meet_postpone"
  let earl_icon := if meet_v = "да, контактировать на день раньше" then "✅" else "❌"
  let no_meet_icon := if meet_v = "нет" then "✅" else "❌"
  let prog_v := get_val rowVals "progress"
  let dt_icon := if prog_v = "прогрев: согласие на детали" then "✅" else "❌"
  let tr_icon := if prog_v = "прогрев: перенос" then "✅" else "❌"
  let int_v := get_val rowVals "interest"
  let hi_ic := if int_v = "высокий" then "✅" else "❌"
  let med_ic := if int_v = "средний" then "✅" else "❌"
  let low_ic := if int_v = "низкий" then "✅" else "❌"
  let crm_v := get_val rowVals "crm_result"
  let su_ic := if crm_v = "успех" then "✅" else "❌"
  let fa_ic := if crm_v = "неудача" then "✅" else "❌"
  let re_ic := if crm_v = "повтор касания" then "✅" else "❌"
  let task_v := get_val rowVals "task_repeat"
  let ty := if task_v = "да" then "✅" else "❌"
  let tn := if task_v = "нет" then "✅" else "❌"
  let vid_val := get_val rowVals "vid_call"
  let v_yes := if vid_val = "да" then "✅" else "❌"
  let v_no := if vid_val = "нет" then "✅" else "❌"
  let sm_val := get_val rowVals "send_mat"
  let sm_yes := if sm_val = "да" then "✅" else "❌"
  let sm_no := if sm_val = "нет" then "✅" else "❌"
  [ [⟨"=== (1) Подготовка к контакту ===", "noop"⟩],
    [⟨"Источник: Telegram " ++ tg_icon, "src:tg:" ++ r⟩,
     ⟨"Другой " ++ other_icon, "src:other:" ++ r⟩],
    [⟨"Tg " ++ icon2 "telegram", "msg_avail:tg:" ++ r⟩,
     ⟨"WA " ++ icon2 "whatsapp", "msg_avail:wa:" ++ r⟩,
     ⟨"Viber " ++ icon2 "viber", "msg_avail:vb:" ++ r⟩],
    [⟨"Line " ++ icon2 "line", "msg_avail:ln:" ++ r⟩,
     ⟨"Нет " ++ icon2 "нет", "msg_avail:none:" ++ r⟩],
    [⟨"Сегментация: покупатель " ++ buy_icon, "seg:buyer:" ++ r⟩,
     ⟨"инвестор " ++ inv_icon, "seg:investor:" ++ r⟩],
    [⟨"=== (2) Первый контакт ===", "noop"⟩],
    [⟨"Звонок IP: Да " ++ yes_icon, "ip_call:yes:" ++ r⟩,
     ⟨"Нет " ++ no_icon, "ip_call:no:" ++ r⟩],
    [⟨"Альтернативный номер: Да " ++ alt_yes, "alt_phone_yesno:yes:" ++ r⟩,
     ⟨"Нет " ++ alt_no, "alt_phone_yesno:no:" ++ r⟩],
    [⟨"Личный номер: Да " ++ per_yes, "pers_phone_yesno:yes:" ++ r⟩,
     ⟨"Нет " ++ per_no, "pers_phone_yesno:no:" ++ r⟩],
    [⟨"Связаться через мессенджер: Да " ++ mc_yes, "messenger_call:yes:" ++ r⟩,
     ⟨"Нет " ++ mc_no, "messenger_call:no:" ++ r⟩],
    [⟨"=== (3) Продолжение ===", "noop"⟩],
    [⟨"Перенос встречи: \x27День раньше\x27 " ++ earl_icon, "meet_postpone:earlier:" ++ r⟩,
     ⟨"Нет " ++ no_meet_icon, "meet_postpone:no:" ++ r⟩],
    [⟨"Прогрев: детали " ++ dt_icon, "progress:details:" ++ r⟩,
     ⟨"Прогрев: перенос " ++ tr_icon, "progress:transfer:" ++ r⟩],
    [⟨"Интерес: Высокий " ++ hi_ic, "interest:high:" ++ r⟩,
     ⟨"Средний " ++ med_ic, "interest:med:" ++ r⟩,
     ⟨"Низкий " ++ low_ic, "interest:low:" ++ r⟩],
    [⟨"Результат: Успех " ++ su_ic, "crm_result:success:" ++ r⟩,
     ⟨"Неудача " ++ fa_ic, "crm_result:fail:" ++ r⟩,
     ⟨"Повтор " ++ re_ic, "crm_result:repeat:" ++ r⟩],
    [⟨"Задача на повтор: Да " ++ ty, "task_repeat:yes:" ++ r⟩,
     ⟨"Нет " ++ tn, "task_repeat:no:" ++ r⟩],
    [⟨"=== (4) Повторное касание ===", "noop"⟩],
    [⟨"Сообщение (ввести)", "input:msg_touch:" ++ r⟩],
    [⟨"=== (5) Общение с лидом ===", "noop"⟩],
    [⟨"Заметки (доп. запись)", "input:notes:" ++ r⟩],
    [⟨"Бюджет (ввести)", "input:budget:" ++ r⟩,
     ⟨"Цель (ввести)", "input:goal:" ++ r⟩],
    [⟨"Предпочтения (ввести)", "input:prefs:" ++ r⟩],
    [⟨"=== (6) Финализация ===", "noop"⟩],
    [⟨"Видеозвонок: Да " ++ v_yes, "vid_call:yes:" ++ r⟩,
     ⟨"Нет " ++ v_no, "vid_call:no:" ++ r⟩],
    [⟨"Отправить материалы: Да " ++ sm_yes, "send_mat:yes:" ++ r⟩,
     ⟨"Нет " ++ sm_no, "send_mat:no:" ++ r⟩],
    [⟨"Завершить", "finish:_:" ++ r⟩] ]

/-- `show_main_menu`: read the full row from the store and render the
keyboard; a failing `sheet.row_values` is caught and reported, and no menu
is rendered (`none`). -/
def show_main_menu (fails : FailOracle) (sheet : Sheet) (rowIndex : Nat) :
    Option (List (List Btn)) :=
  if fails (.readRow rowIndex) then none
  else some (buildMenu (sheet.rowVals rowIndex) rowIndex)

/-! ## Conversation state, session and authorization -/

/-- `LeadStates`: `BULK_DATA` is the "awaiting lead" intake state, `EDITING`
the menu-driven editing state. -/
inductive LeadStates where
  | BULK_DATA
  | EDITING
deriving Repr, DecidableEq

/-- The per-user `context.user_data` slots touched by the bot: the
"awaiting free text" pointer (`editing_field`, `editing_row`); `none` models
an absent key. -/
structure UserData where
  editing_field : Option String
  editing_row : Option Nat
deriving Repr, DecidableEq

/-- Python falsiness of `user_data.get("editing_field")`. -/
def optStrFalsy : Option String → Bool
  | none => true
  | some s => s = ""

/-- Python falsiness of `user_data.get("editing_row")`. -/
def optNatFalsy : Option Nat → Bool
  | none => true
  | some n => n = 0

/-- `check_authorized`: the acting user id is in `AUTHORIZED_USERS` (the
allow-list parsed from the environment, modelled as a parameter). -/
def check_authorized (authorizedUsers : List Nat) (userId : Nat) : Bool :=
  authorizedUsers.contains userId

/-! ## `handle_button` -/

/-- Which branch of `handle_button` replied (message texts are elided; each
constructor stands for the corresponding `reply_text`/`edit_message_text`
call).  `menuOk` records whether the re-render's `sheet.row_values`
succeeded (on failure `show_main_menu` reports the error instead of a
menu). -/
inductive BtnReply where
  | unauthorized
  | badCallback
  | noopMenu (menuOk : Bool)
  | finished
  | promptInput (fieldCode : String)
  | unknownField
  | unknownOption
  | readError
  | writeError
  | updated (newVal : String) (menuOk : Bool)
deriving Repr, DecidableEq

structure BtnResult where
  state : LeadStates
  sheet : Sheet
  ud : UserData
  reply : BtnReply
deriving Repr, DecidableEq

/-- The body of `handle_button` after `query.data.split(":")`.  `none`
models `int(row_str)` raising (the exception escapes the handler, so the
store and session are untouched and the conversation state is not
advanced). -/
def handle_button_parts (auth : Bool) (fails : FailOracle) (sheet : Sheet)
    (ud : UserData) (parts : List String) : Option BtnResult :=
  if ¬ auth then some ⟨.BULK_DATA, sheet, ud, .unauthorized⟩
  else
    match parts with
    | [field_code, short_code, row_str] =>
      match pyParseNat row_str with
      | none => none
      | some row_idx =>
        if field_code = "noop" then
          some ⟨.EDITING, sheet, ud, .noopMenu (!fails (.readRow row_idx))⟩
        else if field_code = "finish" then
          some ⟨.BULK_DATA, sheet, ud, .finished⟩
        else if field_code = "input" then
          some ⟨.EDITING, sheet, ⟨some short_code, some row_idx⟩, .promptInput short_code⟩
        else
          let col := FIELD_TO_COL field_code
          if col = 0 then some ⟨.EDITING, sheet, ud, .unknownField⟩
          else
            match optionsLookup field_code short_code with
            | none => some ⟨.EDITING, sheet, ud, .unknownOption⟩
            | some new_text =>
              if fails (.readCell row_idx col) then
                some ⟨.EDITING, sheet, ud, .readError⟩
              else
                let current_val := sheet.cellVal row_idx col
                let new_val := if pyLowerStr current_val = pyLowerStr new_text then "" else new_text
                if fails (.writeCell row_idx col new_val) then
                  some ⟨.EDITING, sheet, ud, .writeError⟩
                else
                  some ⟨.EDITING, sheet.updateCell row_idx col new_val, ud,
                        .updated new_val (!fails (.readRow row_idx))⟩
    | _ => some ⟨.EDITING, sheet, ud, .badCallback⟩

/-- `handle_button`: authorization gate, split the callback data on `":"`,
then dispatch. -/
def handle_button (auth : Bool) (fails : FailOracle) (sheet : Sheet)
    (ud : UserData) (data : String) : Option BtnResult :=
  handle_button_parts auth fails sheet ud (pySplit ':' data)

/-! ## `handle_text_input` -/

inductive TxtReply where
  | unauthorized
  | noPending
  | badField
  | storeError
  | updated (fieldCode : String) (menuOk : Bool)
deriving Repr, DecidableEq

structure TxtResult where
  state : LeadStates
  sheet : Sheet
  ud : UserData
  reply : TxtReply
deriving Repr, DecidableEq

/-- `handle_text_input`: free-text submission while editing.  The submitted
message is stripped; "notes" appends `"; " + text` to a non-empty cell, all
other codes overwrite; a store fault inside the `try` (the notes read or
either write) is caught, reported, and the handler returns `BULK_DATA`.
The `editing_field`/`editing_row` slots are never written by this handler. -/
def handle_text_input (auth : Bool) (fails : FailOracle) (sheet : Sheet)
    (ud : UserData) (rawText : String) : TxtResult :=
  if ¬ auth then ⟨.BULK_DATA, sheet, ud, .unauthorized⟩
  else
    let text := pyStripStr rawText
    if optStrFalsy ud.editing_field || optNatFalsy ud.editing_row then
      ⟨.BULK_DATA, sheet, ud, .noPending⟩
    else
      let code := ud.editing_field.getD ""
      let row_idx := ud.editing_row.getD 0
      let col := FIELD_TO_COL code
      if col < 1 then ⟨.BULK_DATA, sheet, ud, .badField⟩
      else
        if code = "notes" then
          if fails (.readCell row_idx col) then ⟨.BULK_DATA, sheet, ud, .storeError⟩
          else
            let existing_val := sheet.cellVal row_idx col
            let new_val := if existing_val ≠ "" then existing_val ++ "; " ++ text else text
            if fails (.writeCell row_idx col new_val) then ⟨.BULK_DATA, sheet, ud, .storeError⟩
            else ⟨.EDITING, sheet.updateCell row_idx col new_val, ud,
                  .updated code (!fails (.readRow row_idx))⟩
        else
          if fails (.writeCell row_idx col text) then ⟨.BULK_DATA, sheet, ud, .storeError⟩
          else ⟨.EDITING, sheet.updateCell row_idx col text, ud,
                .updated code (!fails (.readRow row_idx))⟩

/-! ## `process_lead` (intake) -/

/-- The phone candidate `lead.get("Телефон") or lead.get("WhatsApp")`
assembled by `process_lead` from the parser output (phone preferred over
WhatsApp). -/
def phoneCandidate (lead : LeadData) : String :=
  if lead.phone ≠ "" then lead.phone else lead.whatsapp

/-- Which branch of `process_lead` replied.  The four validation rejections
carry the spec's taxonomy names: `missingName` = `MissingRequiredField`,
`noContact` = `NoContactChannel`, `badPhone` = `InvalidPhoneFormat`,
`badEmail` = `InvalidEmailFormat`; each corresponds to the re-prompting
`reply_text` of that branch. -/
inductive IntakeReply where
  | unauthorized
  | missingName
  | noContact
  | badPhone
  | badEmail
  | appendError
  | saved (rowIndex : Nat) (tz region : String) (menuOk : Bool)
deriving Repr, DecidableEq

/-- `IntakeReply`s that are validation rejections (re-prompt, same state). -/
def IntakeReply.isValidationRejection : IntakeReply → Bool
  | .missingName | .noContact | .badPhone | .badEmail => true
  | _ => false

structure IntakeResult where
  state : LeadStates
  sheet : Sheet
  reply : IntakeReply
deriving Repr, DecidableEq

/-- The 32-column row assembled by `process_lead` before `append_row`.
`"Источник лида"` is not among `FIELD_PATTERNS`, so `lead.get(...)` is
always `""` (column 13). -/
def assembleRow (lead : LeadData) (region_auto tz_auto : String) : List String :=
  [lead.clientName, lead.phone, lead.telegram, lead.whatsapp, lead.email,
   lead.messenger, lead.purpose, lead.payment, lead.utm, lead.project,
   region_auto, "", "", tz_auto, "", "", "", "", "", "", "", "", "", "",
   "", "", "", "", "", "", "", ""]

/-- `process_lead`: strip and parse the message, run the validation chain,
auto-infer timezone/region from the phone candidate (phone preferred over
WhatsApp), append the row, and move to `EDITING`; every rejection re-prompts
and stays in `BULK_DATA`, and a failing `append_row` is caught, reported,
and stays in `BULK_DATA`. -/
def process_lead (auth : Bool) (fails : FailOracle) (sheet : Sheet)
    (msgText : String) : IntakeResult :=
  if ¬ auth then ⟨.BULK_DATA, sheet, .unauthorized⟩
  else
    let lead := parse_lead_text (pyStripStr msgText)
    if lead.clientName = "" then ⟨.BULK_DATA, sheet, .missingName⟩
    else
      let phone_candidate := phoneCandidate lead
      if phone_candidate = "" ∧ lead.messenger = "" then ⟨.BULK_DATA, sheet, .noContact⟩
      else if phone_candidate ≠ "" ∧ ¬ validate_phone phone_candidate then
        ⟨.BULK_DATA, sheet, .badPhone⟩
      else if lead.email ≠ "" ∧ ¬ validate_email lead.email then
        ⟨.BULK_DATA, sheet, .badEmail⟩
      else
        let tz_auto := if phone_candidate ≠ "" then guess_tz_by_phone phone_candidate else ""
        let region_auto :=
          if phone_candidate ≠ "" ∧ lead.region = "" then guess_region_by_phone phone_candidate
          else lead.region
        let row := assembleRow lead region_auto tz_auto
        if fails (.appendRow row) then ⟨.BULK_DATA, sheet, .appendError⟩
        else
          let sheet' := sheet.appendRow row
          let new_row_index := sheet'.rows.length
          ⟨.EDITING, sheet', .saved new_row_index tz_auto region_auto (!fails (.readRow new_row_index))⟩

/-! ## Event dispatch (the `ConversationHandler` wiring of `main`) -/

/-- An inbound update: a plain text message, a button press carrying
callback data, or one of the registered commands. -/
inductive Event where
  | message (text : String)
  | callback (data : String)
  | cmdStart
  | cmdCancel
  | cmdAlgorithm
  | cmdUnknown
deriving Repr, DecidableEq

/-- The conversation position: `none` when no conversation is active
(before `/start`, after `/cancel`). -/
abbrev ConvState : Type := Option LeadStates

/-- One step of the bot: route the event as `main`'s `ConversationHandler`
does (`BULK_DATA` text → `process_lead`, `EDITING` callback →
`handle_button`, `EDITING` text → `handle_text_input`, commands to their
handlers; anything else is unhandled) and collect the store, conversation
state and session after the step.  `cmd_start`, `cmd_cancel`,
`cmd_algorithm` and `unknown` only reply; none of them touches the store or
the session. -/
def dispatch (authorizedUsers : List Nat) (userId : Nat) (fails : FailOracle)
    (conv : ConvState) (sheet : Sheet) (ud : UserData) (ev : Event) :
    Sheet × ConvState × UserData :=
  let auth := check_authorized authorizedUsers userId
  match ev, conv with
  | .cmdStart, _ => (sheet, if auth then some .BULK_DATA else conv, ud)
  | .cmdCancel, _ => (sheet, if auth then none else conv, ud)
  | .cmdAlgorithm, _ => (sheet, conv, ud)
  | .cmdUnknown, _ => (sheet, conv, ud)
  | .message t, some .BULK_DATA =>
    let r := process_lead auth fails sheet t
    (r.sheet, some r.state, ud)
  | .message t, some .EDITING =>
    let r := handle_text_input auth fails sheet ud t
    (r.sheet, some r.state, r.ud)
  | .callback d, some .EDITING =>
    match handle_button auth fails sheet ud d with
    | some r => (r.sheet, some r.state, r.ud)
    | none => (sheet, conv, ud)
  | .message _, none => (sheet, conv, ud)
  | .callback _, _ => (sheet, conv, ud)

/-! ## Spec-side definitions used by the claim statements -/

/-- The spec's phone shape on a character list: an optional leading `+`
followed by 6 to 15 digits. -/
def phoneShapeL (g : List Char) : Bool :=
  let ds := if g.head? = some '+' then g.tail else g
  decide (6 ≤ ds.length) && decide (ds.length ≤ 15) && ds.all isPyDigit

/-- The spec's phone shape: "optional leading `+`, 6–15 digits". -/
def specPhoneShape (s : String) : Bool := phoneShapeL s.data

/-- The field codes carrying an option set: exactly the domain of
`OPTIONS_MAP`, in its definition order. -/
def OPTION_FIELD_CODES : List String :=
  ["src", "tz", "msg_avail", "seg", "ip_call", "alt_phone_yesno",
   "pers_phone_yesno", "meet_postpone", "vid_call", "send_mat", "progress",
   "interest", "crm_result", "task_repeat", "messenger_call"]

/-- Suffix test used to state "the selected marker is shown": the button
label ends with the given marker string. -/
def strEndsWith (s suffix : String) : Bool := suffix.data.isSuffixOf s.data

/-- The toggle buttons rendered by `show_main_menu`:
(field code, option code, canonical display value from `OPTIONS_MAP`,
keyboard row, position in the row). -/
def MENU_TOGGLES : List (String × String × String × Nat × Nat) :=
  [("src", "tg", "Telegram", 1, 0), ("src", "other", "Другой", 1, 1),
   ("msg_avail", "tg", "Telegram", 2, 0), ("msg_avail", "wa", "WhatsApp", 2, 1),
   ("msg_avail", "vb", "Viber", 2, 2),
   ("msg_avail", "ln", "Line", 3, 0), ("msg_avail", "none", "Нет", 3, 1),
   ("seg", "buyer", "покупатель", 4, 0), ("seg", "investor", "инвестор", 4, 1),
   ("ip_call", "yes", "Да", 6, 0), ("ip_call", "no", "Нет", 6, 1),
   ("alt_phone_yesno", "yes", "Да", 7, 0), ("alt_phone_yesno", "no", "Нет", 7, 1),
   ("pers_phone_yesno", "yes", "Да", 8, 0), ("pers_phone_yesno", "no", "Нет", 8, 1),
   ("messenger_call", "yes", "Да", 9, 0), ("messenger_call", "no", "Нет", 9, 1),
   ("meet_postpone", "earlier", "Да, контактировать на день раньше", 11, 0),
   ("meet_postpone", "no", "Нет", 11, 1),
   ("progress", "details", "Прогрев: согласие на детали", 12, 0),
   ("progress", "transfer", "Прогрев: перенос", 12, 1),
   ("interest", "high", "Высокий", 13, 0), ("interest", "med", "Средний", 13, 1),
   ("interest", "low", "Низкий", 13, 2),
   ("crm_result", "success", "Успех", 14, 0), ("crm_result", "fail", "Неудача", 14, 1),
   ("crm_result", "repeat", "Повтор касания", 14, 2),
   ("task_repeat", "yes", "Да", 15, 0), ("task_repeat", "no", "Нет", 15, 1),
   ("vid_call", "yes", "Да", 23, 0), ("vid_call", "no", "Нет", 23, 1),
   ("send_mat", "yes", "Да", 24, 0), ("send_mat", "no", "Нет", 24, 1)]

/-! # Theorems

First a layer of helper lemmas about the string machinery and the store,
then one theorem per claim (with witnesses / counterexamples). -/

theorem searchFrom_eq_some {α : Type} (m : List Char → Option α) :
    ∀ (l : List Char) (g : α), searchFrom m l = some g → ∃ s, m s = some g := by
  intro l
  induction l with
  | nil => intro g h; exact ⟨[], h⟩
  | cons c cs ih =>
    intro g h
    unfold searchFrom at h
    cases hm : m (c :: cs) with
    | some r => rw [hm] at h; exact ⟨c :: cs, hm.trans h⟩
    | none => rw [hm] at h; exact ih g h

theorem digit_ne_space {c : Char} (h : isPyDigit c = true) : isPySpace c = false := by
  simp only [isPyDigit, Bool.and_eq_true, decide_eq_true_eq] at h
  simp only [isPySpace, Bool.or_eq_false_iff, decide_eq_false_iff_not]
  omega

theorem dropWhile_space_eq_self {l : List Char}
    (h : ∀ c ∈ l, isPySpace c = false) : l.dropWhile isPySpace = l := by
  cases l with
  | nil => rfl
  | cons c cs =>
    rw [List.dropWhile_cons_of_neg]
    simp [h c (List.mem_cons_self c cs)]

theorem pyStripL_eq_self {l : List Char}
    (h : ∀ c ∈ l, isPySpace c = false) : pyStripL l = l := by
  unfold pyStripL
  rw [dropWhile_space_eq_self h]
  rw [dropWhile_space_eq_self (fun c hc => h c (List.mem_reverse.mp hc))]
  exact l.reverse_reverse

theorem phoneShapeL_plus (ds : List Char) :
    phoneShapeL ('+' :: ds) =
      (decide (6 ≤ ds.length) && decide (ds.length ≤ 15) && ds.all isPyDigit) := rfl

theorem phoneShapeL_of_digits {ds : List Char} (h6 : 6 ≤ ds.length)
    (h15 : ds.length ≤ 15) (hall : ∀ c ∈ ds, isPyDigit c = true) :
    phoneShapeL ds = true := by
  have hhead : ds.head? ≠ some '+' := by
    cases hh : ds.head? with
    | none => simp
    | some c =>
      intro hc
      obtain rfl : c = '+' := Option.some.inj hc
      have := hall '+' (List.mem_of_mem_head? hh)
      exact absurd this (by decide)
  simp only [phoneShapeL]
  rw [if_neg hhead]
  simp only [Bool.and_eq_true, decide_eq_true_eq, List.all_eq_true]
  exact ⟨⟨h6, h15⟩, hall⟩

theorem phoneGroupAt_shape {s g : List Char} (h : phoneGroupAt s = some g) :
    phoneShapeL g = true ∧ g ≠ [] ∧ ∀ c ∈ g, isPySpace c = false := by
  unfold phoneGroupAt at h
  split at h
  · next rest heq =>
    split at h
    · next hlen =>
      obtain rfl : '+' :: (rest.takeWhile isPyDigit).take 15 = g := Option.some.inj h
      have hall : ∀ c ∈ (rest.takeWhile isPyDigit).take 15, isPyDigit c = true :=
        fun c hc => List.mem_takeWhile_imp (List.take_subset 15 _ hc)
      refine ⟨?_, by simp, ?_⟩
      · rw [phoneShapeL_plus]
        simp only [Bool.and_eq_true, decide_eq_true_eq, List.all_eq_true]
        refine ⟨⟨hlen, ?_⟩, hall⟩
        rw [List.length_take]
        omega
      · intro c hc
        rcases List.mem_cons.mp hc with rfl | hc
        · decide
        · exact digit_ne_space (hall c hc)
    · exact absurd h (by simp)
  · next =>
    split at h
    · next hlen =>
      obtain rfl : ((s.dropWhile isPySpace).takeWhile isPyDigit).take 15 = g :=
        Option.some.inj h
      have hall : ∀ c ∈ ((s.dropWhile isPySpace).takeWhile isPyDigit).take 15,
          isPyDigit c = true :=
        fun c hc => List.mem_takeWhile_imp (List.take_subset 15 _ hc)
      have hne : ((s.dropWhile isPySpace).takeWhile isPyDigit).take 15 ≠ [] := by
        intro hnil
        rw [hnil] at hlen
        simp at hlen
      exact ⟨phoneShapeL_of_digits hlen (by rw [List.length_take]; omega) hall, hne,
        fun c hc => digit_ne_space (hall c hc)⟩
    · exact absurd h (by simp)

theorem specPhoneShape_validate {s : String}
    (h : specPhoneShape s = true) : validate_phone s = true := by
  by_cases hs : s = ""
  · simp [validate_phone, hs]
  · unfold validate_phone
    rw [if_neg hs]
    unfold specPhoneShape phoneShapeL at h
    simp only [Bool.and_eq_true, decide_eq_true_eq, List.all_eq_true] at h
    obtain ⟨⟨h6, h15⟩, hall⟩ := h
    have htw : (if s.data.head? = some '+' then s.data.tail else s.data).takeWhile isPyDigit
        = (if s.data.head? = some '+' then s.data.tail else s.data) :=
      List.takeWhile_eq_self_iff.mpr hall
    simp only [htw, List.drop_length, Bool.and_eq_true, decide_eq_true_eq]
    exact ⟨⟨h6, h15⟩, by simp⟩

theorem extractWith_phone_shape (label : String) (t : List Char) :
    extractWith (labelMatchAt label phoneGroupAt) t = "" ∨
      specPhoneShape (extractWith (labelMatchAt label phoneGroupAt) t) = true := by
  unfold extractWith
  cases hs : searchFrom (labelMatchAt label phoneGroupAt) t with
  | none => exact Or.inl rfl
  | some g =>
    obtain ⟨s, hm⟩ := searchFrom_eq_some _ t g hs
    unfold labelMatchAt at hm
    cases hst : stripCI label.data s with
    | none => rw [hst] at hm; exact absurd hm (by simp)
    | some s1 =>
      rw [hst] at hm
      replace hm : phoneGroupAt s1 = some g := hm
      obtain ⟨hshape, hne, hnospace⟩ := phoneGroupAt_shape hm
      dsimp only
      rw [if_neg hne, pyStripL_eq_self hnospace]
      exact Or.inr hshape

theorem phone_fields_ok (text : String) :
    ((parse_lead_text text).phone = "" ∨ specPhoneShape ((parse_lead_text text).phone) = true) ∧
    ((parse_lead_text text).whatsapp = "" ∨
      specPhoneShape ((parse_lead_text text).whatsapp) = true) ∧
    (phoneCandidate (parse_lead_text text) = "" ∨
      specPhoneShape (phoneCandidate (parse_lead_text text)) = true) ∧
    validate_phone (phoneCandidate (parse_lead_text text)) = true := by
  have hp : (parse_lead_text text).phone = "" ∨
      specPhoneShape ((parse_lead_text text).phone) = true :=
    extractWith_phone_shape "Телефон:" text.data
  have hw : (parse_lead_text text).whatsapp = "" ∨
      specPhoneShape ((parse_lead_text text).whatsapp) = true :=
    extractWith_phone_shape "WhatsApp:" text.data
  have hc : phoneCandidate (parse_lead_text text) = "" ∨
      specPhoneShape (phoneCandidate (parse_lead_text text)) = true := by
    unfold phoneCandidate
    split
    · exact hp
    · exact hw
  refine ⟨hp, hw, hc, ?_⟩
  rcases hc with hc | hc
  · simp [hc, validate_phone]
  · exact specPhoneShape_validate hc

theorem process_lead_reply_ne_badPhone (auth : Bool) (fails : FailOracle)
    (sheet : Sheet) (text : String) :
    (process_lead auth fails sheet text).reply ≠ IntakeReply.badPhone := by
  have hval : validate_phone (phoneCandidate (parse_lead_text (pyStripStr text))) = true :=
    (phone_fields_ok (pyStripStr text)).2.2.2
  simp only [process_lead]
  split_ifs with h1 h2 h3 h4 h5 h6 <;> try simp
  all_goals exact absurd hval h4.2

/-- C10: for every input text, the values the lead parser extracts into the
phone ("Телефон") and WhatsApp fields are either the empty string or an
optional leading `+` followed by 6–15 digits; consequently `validate_phone`
holds for the phone candidate (`phone or whatsapp`) assembled from parser
output during intake. -/
theorem parser_phone_invariant (text : String) :
    ((parse_lead_text text).phone = "" ∨ specPhoneShape ((parse_lead_text text).phone) = true) ∧
    ((parse_lead_text text).whatsapp = "" ∨
      specPhoneShape ((parse_lead_text text).whatsapp) = true) ∧
    validate_phone (phoneCandidate (parse_lead_text text)) = true :=
  ⟨(phone_fields_ok text).1, (phone_fields_ok text).2.1, (phone_fields_ok text).2.2.2⟩

/-- C6: the phone candidate of every raw lead text is absent or has the
well-formed shape "optional `+`, 6–15 digits" — `FIELD_PATTERNS` can only
extract such values, so the claim's "present and malformed" case holds
vacuously (its domain is empty) — and intake never produces the
`InvalidPhoneFormat` rejection, for any lead text, store or authorization. -/
theorem intake_phone_format (auth : Bool) (fails : FailOracle) (sheet : Sheet)
    (text : String) :
    (phoneCandidate (parse_lead_text (pyStripStr text)) = "" ∨
      specPhoneShape (phoneCandidate (parse_lead_text (pyStripStr text))) = true) ∧
    (process_lead auth fails sheet text).reply ≠ IntakeReply.badPhone :=
  ⟨(phone_fields_ok (pyStripStr text)).2.2.1,
   process_lead_reply_ne_badPhone auth fails sheet text⟩

/-- C7: every intake validation failure (missing name, no contact channel,
bad phone, bad email) re-prompts (the rejection reply), leaves the store
untouched and keeps the session in `BULK_DATA` (AwaitingLead); and a lead
text whose extracted name is empty is rejected with `MissingRequiredField`
(`missingName`). -/
theorem intake_rejection_no_append (fails : FailOracle) (sheet : Sheet) (text : String) :
    (∀ auth, (process_lead auth fails sheet text).reply.isValidationRejection = true →
      (process_lead auth fails sheet text).sheet = sheet ∧
      (process_lead auth fails sheet text).state = LeadStates.BULK_DATA) ∧
    ((parse_lead_text (pyStripStr text)).clientName = "" →
      (process_lead true fails sheet text).reply = IntakeReply.missingName) := by
  constructor
  · intro auth hrej
    simp only [process_lead] at hrej ⊢
    split_ifs at hrej ⊢ <;> simp_all [IntakeReply.isValidationRejection]
  · intro hname
    simp [process_lead, hname]

/-- Witness for C7 at the lead text `"Телефон: +1234567"` (no name). -/
theorem intake_rejection_no_append_witness :
    (parse_lead_text (pyStripStr "Телефон: +1234567")).clientName = "" ∧
    (process_lead true noFail ⟨[["h"]]⟩ "Телефон: +1234567").reply = IntakeReply.missingName ∧
    (process_lead true noFail ⟨[["h"]]⟩ "Телефон: +1234567").reply.isValidationRejection = true ∧
    (process_lead true noFail ⟨[["h"]]⟩ "Телефон: +1234567").sheet = ⟨[["h"]]⟩ ∧
    (process_lead true noFail ⟨[["h"]]⟩ "Телефон: +1234567").state = LeadStates.BULK_DATA := by
  have h := intake_rejection_no_append noFail ⟨[["h"]]⟩ "Телефон: +1234567"
  have hname : (parse_lead_text (pyStripStr "Телефон: +1234567")).clientName = "" := by rfl
  have hrej : (process_lead true noFail ⟨[["h"]]⟩ "Телефон: +1234567").reply.isValidationRejection
      = true := by rfl
  exact ⟨hname, h.2 hname, hrej, (h.1 true hrej).1, (h.1 true hrej).2⟩

/-- C9: an inbound event from a user who fails the authorization gate never
mutates the store — whatever the conversation position, session, store
contents, event kind and message content. -/
theorem unauthorized_no_store_mutation (users : List Nat) (uid : Nat)
    (fails : FailOracle) (conv : ConvState) (sheet : Sheet) (ud : UserData)
    (ev : Event) (h : check_authorized users uid = false) :
    (dispatch users uid fails conv sheet ud ev).1 = sheet := by
  unfold dispatch
  cases ev <;>
    rcases conv with _ | ⟨_ | _⟩ <;>
      simp [process_lead, handle_text_input, handle_button, handle_button_parts, h]

/-- Witness for C9: user 7 against allow-list `[42]`, one event of each
kind. -/
theorem unauthorized_no_store_mutation_witness :
    check_authorized [42] 7 = false ∧
    (dispatch [42] 7 noFail (some LeadStates.BULK_DATA) ⟨[["h"]]⟩ ⟨none, none⟩
      (Event.message "Имя клиента: Ана\nТелефон: +34600111222")).1 = ⟨[["h"]]⟩ ∧
    (dispatch [42] 7 noFail (some LeadStates.EDITING) ⟨[["h"]]⟩ ⟨none, none⟩
      (Event.callback "ip_call:yes:1")).1 = ⟨[["h"]]⟩ ∧
    (dispatch [42] 7 noFail (some LeadStates.EDITING) ⟨[["h"]]⟩ ⟨some "notes", some 1⟩
      (Event.message "hi")).1 = ⟨[["h"]]⟩ := by
  have hu : check_authorized [42] 7 = false := by decide
  exact ⟨hu,
    unauthorized_no_store_mutation [42] 7 noFail (some LeadStates.BULK_DATA) ⟨[["h"]]⟩
      ⟨none, none⟩ (Event.message "Имя клиента: Ана\nТелефон: +34600111222") hu,
    unauthorized_no_store_mutation [42] 7 noFail (some LeadStates.EDITING) ⟨[["h"]]⟩
      ⟨none, none⟩ (Event.callback "ip_call:yes:1") hu,
    unauthorized_no_store_mutation [42] 7 noFail (some LeadStates.EDITING) ⟨[["h"]]⟩
      ⟨some "notes", some 1⟩ (Event.message "hi") hu⟩

theorem setPad_get_self {α : Type} (dflt v : α) :
    ∀ (i : Nat) (l : List α), (setPad dflt l i v).get? i = some v := by
  intro i
  induction i with
  | zero => intro l; cases l <;> rfl
  | succ n ih =>
    intro l
    cases l with
    | nil => exact ih []
    | cons h t => exact ih t

theorem setPad_getElem {α : Type} (dflt v : α) (i : Nat) (l : List α) :
    (setPad dflt l i v)[i]? = some v := by
  rw [← List.get?_eq_getElem?]
  exact setPad_get_self dflt v i l

theorem cellVal_updateCell_self (s : Sheet) {r c : Nat} (hr : r ≠ 0) (hc : c ≠ 0)
    (v : String) : (s.updateCell r c v).cellVal r c = v := by
  unfold Sheet.updateCell
  rw [if_neg (by push_neg; exact ⟨hr, hc⟩)]
  unfold Sheet.cellVal
  rw [setPad_get_self]
  simp [setPad_getElem]

theorem optionsLookup_field_props {f o canon : String}
    (h : optionsLookup f o = some canon) :
    FIELD_TO_COL f ≠ 0 ∧ f ≠ "noop" ∧ f ≠ "finish" ∧ f ≠ "input" := by
  unfold optionsLookup at h
  cases hm : OPTIONS_MAP f with
  | none => rw [hm] at h; exact absurd h (by simp)
  | some l =>
    unfold OPTIONS_MAP at hm
    split at hm <;> first
      | decide
      | exact absurd hm (by simp)

theorem handle_button_toggle_step (f o canon rs : String) (r : Nat)
    (hopt : optionsLookup f o = some canon) (hrs : pyParseNat rs = some r)
    (sheet : Sheet) (ud : UserData) :
    handle_button_parts true noFail sheet ud [f, o, rs] =
      some ⟨LeadStates.EDITING,
        sheet.updateCell r (FIELD_TO_COL f)
          (if pyLowerStr (sheet.cellVal r (FIELD_TO_COL f)) = pyLowerStr canon
           then "" else canon),
        ud,
        BtnReply.updated
          (if pyLowerStr (sheet.cellVal r (FIELD_TO_COL f)) = pyLowerStr canon
           then "" else canon)
          true⟩ := by
  obtain ⟨hcol, hnoop, hfin, hinp⟩ := optionsLookup_field_props hopt
  simp [handle_button_parts, hrs, hopt, hnoop, hfin, hinp, hcol, noFail]

/-- C1 (amended): for every enrichable toggle field with an option set, an
authorized toggle-option event reads the current cell and writes the empty
string when the current value case-insensitively equals the option's
canonical display value, else writes the canonical value, remaining in
`EDITING`; and — provided the cell's prior value does not already
case-insensitively equal the canonical value (e.g. the field is empty) —
applying the same toggle-option event twice in succession leaves the field
empty, with the cell holding exactly the canonical display value between
the two applications, the state remaining `EDITING` throughout.  (The
original claim asserts the pair property for every prior value; it fails
when the prior value already equals the canonical value, see the
counterexample.) -/
theorem toggle_select_deselect (f o canon rs : String) (r : Nat)
    (hopt : optionsLookup f o = some canon)
    (hrs : pyParseNat rs = some r) (hr : r ≠ 0) :
    (∀ (sheet : Sheet) (ud : UserData),
      handle_button_parts true noFail sheet ud [f, o, rs] =
        some ⟨LeadStates.EDITING,
          sheet.updateCell r (FIELD_TO_COL f)
            (if pyLowerStr (sheet.cellVal r (FIELD_TO_COL f)) = pyLowerStr canon
             then "" else canon),
          ud,
          BtnReply.updated
            (if pyLowerStr (sheet.cellVal r (FIELD_TO_COL f)) = pyLowerStr canon
             then "" else canon) true⟩) ∧
    (∀ (sheet : Sheet) (ud : UserData),
      pyLowerStr (sheet.cellVal r (FIELD_TO_COL f)) ≠ pyLowerStr canon →
      ∃ s1 s2 : BtnResult,
        handle_button_parts true noFail sheet ud [f, o, rs] = some s1 ∧
        handle_button_parts true noFail s1.sheet s1.ud [f, o, rs] = some s2 ∧
        s1.sheet.cellVal r (FIELD_TO_COL f) = canon ∧
        s1.state = LeadStates.EDITING ∧
        s2.sheet.cellVal r (FIELD_TO_COL f) = "" ∧
        s2.state = LeadStates.EDITING) := by
  have hcol : FIELD_TO_COL f ≠ 0 := (optionsLookup_field_props hopt).1
  refine ⟨fun sheet ud => handle_button_toggle_step f o canon rs r hopt hrs sheet ud,
    fun sheet ud hne => ?_⟩
  have h1 := handle_button_toggle_step f o canon rs r hopt hrs sheet ud
  rw [if_neg hne] at h1
  have hcell1 : (sheet.updateCell r (FIELD_TO_COL f) canon).cellVal r (FIELD_TO_COL f)
      = canon := cellVal_updateCell_self sheet hr hcol canon
  have h2 := handle_button_toggle_step f o canon rs r hopt hrs
    (sheet.updateCell r (FIELD_TO_COL f) canon) ud
  rw [hcell1, if_pos rfl] at h2
  refine ⟨_, _, h1, h2, hcell1, rfl, ?_, rfl⟩
  exact cellVal_updateCell_self _ hr hcol ""

/-- Witness for C1: toggling `ip_call:yes` on row 2 of a sheet whose cell is
empty. -/
theorem toggle_select_deselect_witness :
    optionsLookup "ip_call" "yes" = some "Да" ∧
    pyParseNat "2" = some 2 ∧ (2 : Nat) ≠ 0 ∧
    pyLowerStr ((⟨[[], []]⟩ : Sheet).cellVal 2 (FIELD_TO_COL "ip_call")) ≠ pyLowerStr "Да" ∧
    (∃ s1 s2 : BtnResult,
      handle_button_parts true noFail ⟨[[], []]⟩ ⟨none, none⟩ ["ip_call", "yes", "2"] = some s1 ∧
      handle_button_parts true noFail s1.sheet s1.ud ["ip_call", "yes", "2"] = some s2 ∧
      s1.sheet.cellVal 2 (FIELD_TO_COL "ip_call") = "Да" ∧
      s1.state = LeadStates.EDITING ∧
      s2.sheet.cellVal 2 (FIELD_TO_COL "ip_call") = "" ∧
      s2.state = LeadStates.EDITING) := by
  have h := toggle_select_deselect "ip_call" "yes" "Да" "2" 2 (by rfl) (by rfl) (by decide)
  exact ⟨by rfl, by rfl, by decide, by decide,
    h.2 ⟨[[], []]⟩ ⟨none, none⟩ (by decide)⟩

/-- Counterexample to C1 as stated: if the cell already holds the canonical
value `"Да"`, the first `ip_call:yes` toggle clears it and the second
rewrites `"Да"`, so after two identical toggles the field is *not* empty,
and between the two the cell does *not* hold the canonical value. -/
theorem toggle_pair_counterexample :
    ∃ s1 s2 : BtnResult,
      handle_button true noFail ⟨[[], List.replicate 17 "" ++ ["Да"]]⟩ ⟨none, none⟩
        "ip_call:yes:2" = some s1 ∧
      handle_button true noFail s1.sheet s1.ud "ip_call:yes:2" = some s2 ∧
      s1.sheet.cellVal 2 18 = "" ∧ ("" : String) ≠ "Да" ∧
      s2.sheet.cellVal 2 18 = "Да" ∧ ("Да" : String) ≠ "" := by
  refine ⟨_, _, rfl, rfl, by decide, by decide, by decide, by decide⟩

theorem handle_text_input_notes_step (sheet : Sheet) (ud : UserData) (r : Nat)
    (text : String) (hf : ud.editing_field = some "notes")
    (hrow : ud.editing_row = some r) (hr : r ≠ 0) :
    handle_text_input true noFail sheet ud text =
      ⟨LeadStates.EDITING,
       sheet.updateCell r 12
         (if sheet.cellVal r 12 ≠ "" then sheet.cellVal r 12 ++ "; " ++ pyStripStr text
          else pyStripStr text),
       ud, TxtReply.updated "notes" true⟩ := by
  simp [handle_text_input, hf, hrow, optStrFalsy, optNatFalsy, hr, noFail, FIELD_TO_COL]

theorem handle_text_input_overwrite_step (sheet : Sheet) (ud : UserData)
    (code : String) (r : Nat) (text : String) (hf : ud.editing_field = some code)
    (hcode : code ≠ "notes") (hcode2 : code ≠ "") (hcol : FIELD_TO_COL code ≠ 0)
    (hrow : ud.editing_row = some r) (hr : r ≠ 0) :
    handle_text_input true noFail sheet ud text =
      ⟨LeadStates.EDITING, sheet.updateCell r (FIELD_TO_COL code) (pyStripStr text),
       ud, TxtReply.updated code true⟩ := by
  simp [handle_text_input, hf, hrow, optStrFalsy, optNatFalsy, hr, hcode, hcode2,
    hcol, noFail, Nat.lt_one_iff]

/-- C4 (amended): for every free-text submission while the awaiting-text
pointer is set, with the submitted message text *trimmed of surrounding
whitespace* (the handler strips it): the "notes" field appends
`"; " + text` to a non-empty cell and sets an empty cell, every other
pending field code is overwritten; consequently two successive submissions
`"a"` then `"b"` leave `"a; b"` in notes (from empty) and `"b"` in any
other free-text field.  (The original claim writes the raw submitted text;
the code writes `update.message.text.strip()`, see the counterexample.) -/
theorem free_text_submission_semantics :
    (∀ (sheet : Sheet) (ud : UserData) (r : Nat) (text : String),
      ud.editing_field = some "notes" → ud.editing_row = some r → r ≠ 0 →
      handle_text_input true noFail sheet ud text =
        ⟨LeadStates.EDITING,
         sheet.updateCell r 12
           (if sheet.cellVal r 12 ≠ "" then sheet.cellVal r 12 ++ "; " ++ pyStripStr text
            else pyStripStr text),
         ud, TxtReply.updated "notes" true⟩) ∧
    (∀ (sheet : Sheet) (ud : UserData) (code : String) (r : Nat) (text : String),
      ud.editing_field = some code → code ≠ "notes" → code ≠ "" →
      FIELD_TO_COL code ≠ 0 → ud.editing_row = some r → r ≠ 0 →
      handle_text_input true noFail sheet ud text =
        ⟨LeadStates.EDITING, sheet.updateCell r (FIELD_TO_COL code) (pyStripStr text),
         ud, TxtReply.updated code true⟩) ∧
    (∀ (sheet : Sheet) (r : Nat), r ≠ 0 → sheet.cellVal r 12 = "" →
      ((handle_text_input true noFail
          (handle_text_input true noFail sheet ⟨some "notes", some r⟩ "a").sheet
          ⟨some "notes", some r⟩ "b").sheet).cellVal r 12 = "a; b") ∧
    (∀ (sheet : Sheet) (code : String) (r : Nat),
      code ≠ "notes" → code ≠ "" → FIELD_TO_COL code ≠ 0 → r ≠ 0 →
      ((handle_text_input true noFail
          (handle_text_input true noFail sheet ⟨some code, some r⟩ "a").sheet
          ⟨some code, some r⟩ "b").sheet).cellVal r (FIELD_TO_COL code) = "b") := by
  refine ⟨fun sheet ud r text hf hrow hr =>
      handle_text_input_notes_step sheet ud r text hf hrow hr,
    fun sheet ud code r text hf h1 h2 h3 hrow hr =>
      handle_text_input_overwrite_step sheet ud code r text hf h1 h2 h3 hrow hr,
    ?_, ?_⟩
  · intro sheet r hr hempty
    rw [handle_text_input_notes_step sheet ⟨some "notes", some r⟩ r "a" rfl rfl hr]
    have h12 : (12 : Nat) ≠ 0 := by decide
    have hcell1 : (sheet.updateCell r 12
        (if sheet.cellVal r 12 ≠ "" then sheet.cellVal r 12 ++ "; " ++ pyStripStr "a"
         else pyStripStr "a")).cellVal r 12 = "a" := by
      rw [if_neg (by simp [hempty])]
      exact cellVal_updateCell_self sheet hr h12 (pyStripStr "a")
    rw [handle_text_input_notes_step _ ⟨some "notes", some r⟩ r "b" rfl rfl hr]
    simp only [hcell1]
    have happ : ("a" : String) ++ "; " ++ pyStripStr "b" = "a; b" := by decide
    rw [if_pos (show ("a" : String) ≠ "" from by decide), happ]
    exact cellVal_updateCell_self _ hr h12 "a; b"
  · intro sheet code r h1 h2 h3 hr
    rw [handle_text_input_overwrite_step sheet ⟨some code, some r⟩ code r "a" rfl h1 h2 h3 rfl hr]
    rw [handle_text_input_overwrite_step _ ⟨some code, some r⟩ code r "b" rfl h1 h2 h3 rfl hr]
    exact cellVal_updateCell_self _ hr h3 (pyStripStr "b")

/-- Witness for C4: the `"a"` then `"b"` sequences on notes and on the
"budget" field of a concrete sheet. -/
theorem free_text_submission_witness :
    (((⟨[[], []]⟩ : Sheet).cellVal 2 12 = "") ∧ (2 : Nat) ≠ 0 ∧
      ((handle_text_input true noFail
          (handle_text_input true noFail ⟨[[], []]⟩ ⟨some "notes", some 2⟩ "a").sheet
          ⟨some "notes", some 2⟩ "b").sheet).cellVal 2 12 = "a; b") ∧
    (("budget" : String) ≠ "notes" ∧ ("budget" : String) ≠ "" ∧
      FIELD_TO_COL "budget" ≠ 0 ∧
      ((handle_text_input true noFail
          (handle_text_input true noFail ⟨[[], []]⟩ ⟨some "budget", some 2⟩ "a").sheet
          ⟨some "budget", some 2⟩ "b").sheet).cellVal 2 (FIELD_TO_COL "budget") = "b") := by
  have h := free_text_submission_semantics
  exact ⟨⟨rfl, by decide, h.2.2.1 ⟨[[], []]⟩ 2 (by decide) rfl⟩,
    ⟨by decide, by decide, by decide,
      h.2.2.2 ⟨[[], []]⟩ "budget" 2 (by decide) (by decide) (by decide) (by decide)⟩⟩

/-- Counterexample to C4 as stated: submitting `" b "` to the "budget"
field stores `"b"`, not the submitted text `" b "`. -/
theorem free_text_strip_counterexample :
    (handle_text_input true noFail ⟨[[], []]⟩ ⟨some "budget", some 2⟩ " b ").sheet.cellVal 2 27
        = "b" ∧ ("b" : String) ≠ " b " :=
  ⟨rfl, by decide⟩

/-- C3 is violated by the code: neither a successful free-text submission
nor the finish event clears the awaiting-text pointer —
`handle_text_input` and the `finish` branch of `handle_button` never write
`editing_field`/`editing_row`.  Evaluated at the claimed clearing points:
after a successful submission for "budget" on row 2 the session still
records `editing_field = some "budget"`, and the finish event returns the
session unchanged. -/
theorem awaiting_text_pointer_retained :
    ((handle_text_input true noFail ⟨[[], []]⟩ ⟨some "budget", some 2⟩ "x").reply
        = TxtReply.updated "budget" true ∧
     (handle_text_input true noFail ⟨[[], []]⟩ ⟨some "budget", some 2⟩ "x").state
        = LeadStates.EDITING ∧
     (handle_text_input true noFail ⟨[[], []]⟩ ⟨some "budget", some 2⟩ "x").ud.editing_field
        = some "budget") ∧
    (handle_button true noFail ⟨[[], []]⟩ ⟨some "budget", some 2⟩ "finish:_:2"
        = some ⟨LeadStates.BULK_DATA, ⟨[[], []]⟩, ⟨some "budget", some 2⟩, BtnReply.finished⟩ ∧
     (some "budget" : Option String) ≠ none) :=
  ⟨⟨rfl, rfl, rfl⟩, ⟨rfl, by decide⟩⟩

/-- A failing `append_row` during intake is caught and reported and leaves
the store and the `BULK_DATA` state unchanged (helper for C2). -/
theorem process_lead_append_failure (fails : FailOracle) (sheet : Sheet) (text : String)
    (happ : ∀ vals, fails (StoreOp.appendRow vals) = true) :
    (process_lead true fails sheet text).sheet = sheet ∧
    (process_lead true fails sheet text).state = LeadStates.BULK_DATA ∧
    ((process_lead true fails sheet text).reply = IntakeReply.appendError ∨
      (process_lead true fails sheet text).reply.isValidationRejection = true) := by
  simp only [process_lead, happ]
  split_ifs <;> simp_all [IntakeReply.isValidationRejection]

/-- A failing `sheet.cell` read during a toggle is caught and reported,
leaving the store, session and `EDITING` state unchanged (helper for C2). -/
theorem handle_button_read_failure (fails : FailOracle) (sheet : Sheet) (ud : UserData)
    (f o canon rs : String) (r : Nat) (hopt : optionsLookup f o = some canon)
    (hrs : pyParseNat rs = some r)
    (hread : fails (StoreOp.readCell r (FIELD_TO_COL f)) = true) :
    handle_button_parts true fails sheet ud [f, o, rs] =
      some ⟨LeadStates.EDITING, sheet, ud, BtnReply.readError⟩ := by
  obtain ⟨hcol, hnoop, hfin, hinp⟩ := optionsLookup_field_props hopt
  simp [handle_button_parts, hrs, hopt, hnoop, hfin, hinp, hcol, hread]

/-- A failing `update_cell` write during a toggle is caught and reported,
leaving the store, session and `EDITING` state unchanged (helper for C2). -/
theorem handle_button_write_failure (fails : FailOracle) (sheet : Sheet) (ud : UserData)
    (f o canon rs : String) (r : Nat) (hopt : optionsLookup f o = some canon)
    (hrs : pyParseNat rs = some r)
    (hread : fails (StoreOp.readCell r (FIELD_TO_COL f)) = false)
    (hw : ∀ v, fails (StoreOp.writeCell r (FIELD_TO_COL f) v) = true) :
    handle_button_parts true fails sheet ud [f, o, rs] =
      some ⟨LeadStates.EDITING, sheet, ud, BtnReply.writeError⟩ := by
  obtain ⟨hcol, hnoop, hfin, hinp⟩ := optionsLookup_field_props hopt
  simp [handle_button_parts, hrs, hopt, hnoop, hfin, hinp, hcol, hread, hw]

/-- A failing store operation during a free-text submission is caught and
reported, leaves the store unchanged, but returns `BULK_DATA` (helper for
C2). -/
theorem handle_text_input_store_failure (fails : FailOracle) (sheet : Sheet)
    (ud : UserData) (code : String) (r : Nat) (text : String)
    (hf : ud.editing_field = some code) (hrow : ud.editing_row = some r)
    (hcode : code ≠ "") (hr : r ≠ 0) (hcol : FIELD_TO_COL code ≠ 0)
    (hw : ∀ v, fails (StoreOp.writeCell r (FIELD_TO_COL code) v) = true) :
    handle_text_input true fails sheet ud text =
      ⟨LeadStates.BULK_DATA, sheet, ud, TxtReply.storeError⟩ := by
  simp only [handle_text_input, hf, hrow]
  rw [show (optStrFalsy (some code) || optNatFalsy (some r)) = false by
    simp [optStrFalsy, optNatFalsy, hcode, hr]]
  simp only [Bool.false_eq_true, if_false, Option.getD_some]
  rw [if_neg (show ¬ FIELD_TO_COL code < 1 by omega)]
  split_ifs with hnotes hread <;> simp_all [hw]

/-- C2 (amended): every store read/write failure along a transition is
caught and reported as a transient error and never mutates the store; the
conversation state is unchanged on a failing intake append (`BULK_DATA`)
and on a failing button-toggle read or write (`EDITING`); however, a store
write failure during a free-text field submission, while caught and
reported, moves the session to `BULK_DATA` (AwaitingLead) instead of
leaving it in `EDITING`.  (The original claim asserts the state is
unchanged for that transition too; see the counterexample.) -/
theorem store_failure_handling :
    (∀ (fails : FailOracle) (sheet : Sheet) (text : String),
      (∀ vals, fails (StoreOp.appendRow vals) = true) →
      (process_lead true fails sheet text).sheet = sheet ∧
      (process_lead true fails sheet text).state = LeadStates.BULK_DATA ∧
      ((process_lead true fails sheet text).reply = IntakeReply.appendError ∨
        (process_lead true fails sheet text).reply.isValidationRejection = true)) ∧
    (∀ (fails : FailOracle) (sheet : Sheet) (ud : UserData) (f o canon rs : String) (r : Nat),
      optionsLookup f o = some canon → pyParseNat rs = some r →
      fails (StoreOp.readCell r (FIELD_TO_COL f)) = true →
      handle_button_parts true fails sheet ud [f, o, rs] =
        some ⟨LeadStates.EDITING, sheet, ud, BtnReply.readError⟩) ∧
    (∀ (fails : FailOracle) (sheet : Sheet) (ud : UserData) (f o canon rs : String) (r : Nat),
      optionsLookup f o = some canon → pyParseNat rs = some r →
      fails (StoreOp.readCell r (FIELD_TO_COL f)) = false →
      (∀ v, fails (StoreOp.writeCell r (FIELD_TO_COL f) v) = true) →
      handle_button_parts true fails sheet ud [f, o, rs] =
        some ⟨LeadStates.EDITING, sheet, ud, BtnReply.writeError⟩) ∧
    (∀ (fails : FailOracle) (sheet : Sheet) (ud : UserData) (code : String) (r : Nat)
        (text : String),
      ud.editing_field = some code → ud.editing_row = some r →
      code ≠ "" → r ≠ 0 → FIELD_TO_COL code ≠ 0 →
      (∀ v, fails (StoreOp.writeCell r (FIELD_TO_COL code) v) = true) →
      handle_text_input true fails sheet ud text =
        ⟨LeadStates.BULK_DATA, sheet, ud, TxtReply.storeError⟩) :=
  ⟨process_lead_append_failure,
   fun fails sheet ud f o canon rs r h1 h2 h3 =>
     handle_button_read_failure fails sheet ud f o canon rs r h1 h2 h3,
   fun fails sheet ud f o canon rs r h1 h2 h3 h4 =>
     handle_button_write_failure fails sheet ud f o canon rs r h1 h2 h3 h4,
   fun fails sheet ud code r text h1 h2 h3 h4 h5 h6 =>
     handle_text_input_store_failure fails sheet ud code r text h1 h2 h3 h4 h5 h6⟩

/-- Counterexample to C2 as stated: with every store operation failing, a
free-text submission from the `EDITING` state ends in `BULK_DATA`
(AwaitingLead), not `EDITING`, though the failure is reported. -/
theorem store_failure_counterexample :
    (handle_text_input true (fun _ => true) ⟨[[], []]⟩ ⟨some "budget", some 2⟩ "x").state
        = LeadStates.BULK_DATA ∧
    (handle_text_input true (fun _ => true) ⟨[[], []]⟩ ⟨some "budget", some 2⟩ "x").reply
        = TxtReply.storeError ∧
    LeadStates.BULK_DATA ≠ LeadStates.EDITING :=
  ⟨rfl, rfl, by decide⟩

/-- Witness for C2: concrete failing-append, failing-read and
failing-write oracles on concrete sheets/sessions. -/
theorem store_failure_handling_witness :
    ((∀ vals, (fun op => match op with
        | StoreOp.appendRow _ => true
        | _ => false) (StoreOp.appendRow vals) = true) ∧
      (process_lead true (fun op => match op with
        | StoreOp.appendRow _ => true
        | _ => false) ⟨[["h"]]⟩ "Имя клиента: Ана\nТелефон: +34600111222").sheet = ⟨[["h"]]⟩ ∧
      (process_lead true (fun op => match op with
        | StoreOp.appendRow _ => true
        | _ => false) ⟨[["h"]]⟩ "Имя клиента: Ана\nТелефон: +34600111222").state
          = LeadStates.BULK_DATA) ∧
    (optionsLookup "ip_call" "yes" = some "Да" ∧ pyParseNat "2" = some 2 ∧
      handle_button_parts true (fun op => match op with
        | StoreOp.readCell _ _ => true
        | _ => false) ⟨[[], []]⟩ ⟨none, none⟩ ["ip_call", "yes", "2"] =
        some ⟨LeadStates.EDITING, ⟨[[], []]⟩, ⟨none, none⟩, BtnReply.readError⟩) ∧
    (handle_button_parts true (fun op => match op with
        | StoreOp.writeCell _ _ _ => true
        | _ => false) ⟨[[], []]⟩ ⟨none, none⟩ ["ip_call", "yes", "2"] =
        some ⟨LeadStates.EDITING, ⟨[[], []]⟩, ⟨none, none⟩, BtnReply.writeError⟩) ∧
    (handle_text_input true (fun op => match op with
        | StoreOp.writeCell _ _ _ => true
        | _ => false) ⟨[[], []]⟩ ⟨some "budget", some 2⟩ "x" =
        ⟨LeadStates.BULK_DATA, ⟨[[], []]⟩, ⟨some "budget", some 2⟩, TxtReply.storeError⟩) := by
  have h := store_failure_handling
  refine ⟨⟨fun vals => rfl, ?_, ?_⟩, ⟨rfl, rfl, ?_⟩, ?_, ?_⟩
  · exact (h.1 _ ⟨[["h"]]⟩ "Имя клиента: Ана\nТелефон: +34600111222" (fun vals => rfl)).1
  · exact (h.1 _ ⟨[["h"]]⟩ "Имя клиента: Ана\nТелефон: +34600111222" (fun vals => rfl)).2.1
  · exact h.2.1 _ ⟨[[], []]⟩ ⟨none, none⟩ "ip_call" "yes" "Да" "2" 2 rfl rfl rfl
  · exact h.2.2.1 _ ⟨[[], []]⟩ ⟨none, none⟩ "ip_call" "yes" "Да" "2" 2 rfl rfl rfl
      (fun v => rfl)
  · exact h.2.2.2 _ ⟨[[], []]⟩ ⟨some "budget", some 2⟩ "budget" 2 "x" rfl rfl
      (by decide) (by decide) (by decide) (fun v => rfl)

/-- A string starting with a one-character prefix determines its head
(helper for C5: distinct one-character table prefixes are mutually
exclusive). -/
theorem startsWith_head {d : List Char} {c : Char} {t : List Char}
    (h : List.isPrefixOf (c :: t) d = true) : d.head? = some c := by
  cases d with
  | nil => simp [List.isPrefixOf] at h
  | cons a as =>
    simp only [List.isPrefixOf, Bool.and_eq_true, beq_iff_eq] at h
    simp [h.1]

/-- C5: for every phone candidate starting with `+` whose digits (after
stripping the sign) start with a prefix present in the timezone (resp.
region) table, inference returns the mapped label, preferring the longest
matching prefix; every other input (no leading `+`, or no matching prefix)
yields the sentinel (`"Другой"` resp. `"Unknown"`). -/
theorem phone_prefix_inference :
    (∀ (s : String) (kv : String × String),
      pyStartsWith s "+" = true → kv ∈ COUNTRY_TZ_MAP →
      pyStartsWith ⟨s.data.drop 1⟩ kv.1 = true →
      (∀ q ∈ COUNTRY_TZ_MAP, pyStartsWith ⟨s.data.drop 1⟩ q.1 = true →
        q.1.length ≤ kv.1.length) →
      guess_tz_by_phone s = kv.2) ∧
    (∀ s : String,
      (pyStartsWith s "+" = false ∨
        ∀ q ∈ COUNTRY_TZ_MAP, pyStartsWith ⟨s.data.drop 1⟩ q.1 = false) →
      guess_tz_by_phone s = "Другой") ∧
    (∀ (s : String) (kv : String × String),
      pyStartsWith s "+" = true → kv ∈ REGION_PREFIX_MAP →
      pyStartsWith ⟨s.data.drop 1⟩ kv.1 = true →
      (∀ q ∈ REGION_PREFIX_MAP, pyStartsWith ⟨s.data.drop 1⟩ q.1 = true →
        q.1.length ≤ kv.1.length) →
      guess_region_by_phone s = kv.2) ∧
    (∀ s : String,
      (pyStartsWith s "+" = false ∨
        ∀ q ∈ REGION_PREFIX_MAP, pyStartsWith ⟨s.data.drop 1⟩ q.1 = false) →
      guess_region_by_phone s = "Unknown") := by
  have hexcl17 : ∀ d : String, pyStartsWith d "1" = true → pyStartsWith d "7" = false := by
    intro d h1
    cases h7 : pyStartsWith d "7" with
    | false => rfl
    | true =>
      have e1 : d.data.head? = some '1' := startsWith_head h1
      have e7 : d.data.head? = some '7' := startsWith_head h7
      rw [e1] at e7
      exact absurd e7 (by decide)
  refine ⟨?_, ?_, ?_, ?_⟩
  · intro s kv hplus hmem hpre hlong
    have h34ne : kv.1 = "7" ∨ kv.1 = "1" →
        pyStartsWith ⟨s.data.drop 1⟩ "34" = false := by
      intro hkv
      cases h34 : pyStartsWith ⟨s.data.drop 1⟩ "34" with
      | false => rfl
      | true =>
        have := hlong ("34", "GMT+1") (by simp [COUNTRY_TZ_MAP]) h34
        rcases hkv with hkv | hkv <;> rw [hkv] at this <;> exact absurd this (by decide)
    simp only [COUNTRY_TZ_MAP, List.mem_cons, List.not_mem_nil, or_false] at hmem
    rcases hmem with rfl | rfl | rfl
    · rw [List.drop_one] at hpre
      simp [guess_tz_by_phone, hplus, COUNTRY_TZ_MAP, hpre]
    · have h34 := h34ne (Or.inl rfl)
      rw [List.drop_one] at hpre h34
      simp [guess_tz_by_phone, hplus, COUNTRY_TZ_MAP, h34, hpre]
    · have h34 := h34ne (Or.inr rfl)
      have h7 := hexcl17 _ hpre
      rw [List.drop_one] at hpre h34 h7
      simp [guess_tz_by_phone, hplus, COUNTRY_TZ_MAP, h34, h7, hpre]
  · intro s hs
    rcases hs with hs | hs
    · simp [guess_tz_by_phone, hs]
    · have h34 := hs ("34", "GMT+1") (by simp [COUNTRY_TZ_MAP])
      have h7 := hs ("7", "GMT+3") (by simp [COUNTRY_TZ_MAP])
      have h1 := hs ("1", "GMT-5") (by simp [COUNTRY_TZ_MAP])
      rw [List.drop_one] at h34 h7 h1
      simp [guess_tz_by_phone, COUNTRY_TZ_MAP, h34, h7, h1]
  · intro s kv hplus hmem hpre hlong
    have h34ne : kv.1 = "7" ∨ kv.1 = "1" →
        pyStartsWith ⟨s.data.drop 1⟩ "34" = false := by
      intro hkv
      cases h34 : pyStartsWith ⟨s.data.drop 1⟩ "34" with
      | false => rfl
      | true =>
        have := hlong ("34", "Spain") (by simp [REGION_PREFIX_MAP]) h34
        rcases hkv with hkv | hkv <;> rw [hkv] at this <;> exact absurd this (by decide)
    simp only [REGION_PREFIX_MAP, List.mem_cons, List.not_mem_nil, or_false] at hmem
    rcases hmem with rfl | rfl | rfl
    · rw [List.drop_one] at hpre
      simp [guess_region_by_phone, hplus, hpre]
    · have h34 := h34ne (Or.inl rfl)
      rw [List.drop_one] at hpre h34
      simp [guess_region_by_phone, hplus, h34, hpre]
    · have h34 := h34ne (Or.inr rfl)
      have h7 := hexcl17 _ hpre
      rw [List.drop_one] at hpre h34 h7
      simp [guess_region_by_phone, hplus, h34, h7, hpre]
  · intro s hs
    rcases hs with hs | hs
    · simp [guess_region_by_phone, hs]
    · have h34 := hs ("34", "Spain") (by simp [REGION_PREFIX_MAP])
      have h7 := hs ("7", "Russia") (by simp [REGION_PREFIX_MAP])
      have h1 := hs ("1", "USA") (by simp [REGION_PREFIX_MAP])
      rw [List.drop_one] at h34 h7 h1
      simp [guess_region_by_phone, h34, h7, h1]

/-- Witness for C5 at `"+34600111222"` / `"8600"` (timezone) and
`"+79991112233"` / `"+2900"` (region). -/
theorem phone_prefix_inference_witness :
    (pyStartsWith "+34600111222" "+" = true ∧
      ("34", "GMT+1") ∈ COUNTRY_TZ_MAP ∧
      pyStartsWith ⟨("+34600111222" : String).data.drop 1⟩ "34" = true ∧
      (∀ q ∈ COUNTRY_TZ_MAP,
        pyStartsWith ⟨("+34600111222" : String).data.drop 1⟩ q.1 = true →
          q.1.length ≤ ("34" : String).length) ∧
      guess_tz_by_phone "+34600111222" = "GMT+1") ∧
    guess_tz_by_phone "8600" = "Другой" ∧
    (("7", "Russia") ∈ REGION_PREFIX_MAP ∧
      guess_region_by_phone "+79991112233" = "Russia") ∧
    guess_region_by_phone "+2900" = "Unknown" := by
  have h := phone_prefix_inference
  refine ⟨⟨by decide, by decide, by decide, by decide, ?_⟩, ?_, ⟨by decide, ?_⟩, ?_⟩
  · exact h.1 "+34600111222" ("34", "GMT+1") (by decide) (by decide) (by decide) (by decide)
  · exact h.2.1 "8600" (Or.inl (by decide))
  · exact h.2.2.1 "+79991112233" ("7", "Russia") (by decide) (by decide) (by decide)
      (by decide)
  · exact h.2.2.2 "+2900" (Or.inr (by decide))

/-- The icon appended to a button label shows `"✅"` exactly when the icon
condition holds (helper for C8). -/
theorem endsWithIcon (gv lit base : String)
    (h1 : strEndsWith (base ++ "✅") "✅" = true)
    (h2 : strEndsWith (base ++ "❌") "✅" = false) :
    (strEndsWith (base ++ if gv = lit then "✅" else "❌") "✅" = true ↔ gv = lit) := by
  by_cases h : gv = lit
  · simp [h, h1]
  · simp [h, h2]

/-- Every toggle button of the keyboard carries its `field:option:row`
callback and shows the selected marker exactly when `get_val` — the
stripped, lowercased stored cell — equals the lowercased canonical display
value (helper for C8). -/
theorem menu_marker_test (rowVals : List String) (rowIndex : Nat)
    (f o canon : String) (kr kc : Nat)
    (hmem : (f, o, canon, kr, kc) ∈ MENU_TOGGLES) :
    ∃ b : Btn,
      ((buildMenu rowVals rowIndex).getD kr []).get? kc = some b ∧
      b.callback = f ++ ":" ++ o ++ ":" ++ toString rowIndex ∧
      optionsLookup f o = some canon ∧
      (strEndsWith b.label "✅" = true ↔ get_val rowVals f = pyLowerStr canon) := by
  simp only [MENU_TOGGLES, List.mem_cons, List.not_mem_nil, or_false,
    Prod.mk.injEq] at hmem
  rcases hmem with ⟨rfl,rfl,rfl,rfl,rfl⟩|⟨rfl,rfl,rfl,rfl,rfl⟩|⟨rfl,rfl,rfl,rfl,rfl⟩|
    ⟨rfl,rfl,rfl,rfl,rfl⟩|⟨rfl,rfl,rfl,rfl,rfl⟩|⟨rfl,rfl,rfl,rfl,rfl⟩|⟨rfl,rfl,rfl,rfl,rfl⟩|
    ⟨rfl,rfl,rfl,rfl,rfl⟩|⟨rfl,rfl,rfl,rfl,rfl⟩|⟨rfl,rfl,rfl,rfl,rfl⟩|⟨rfl,rfl,rfl,rfl,rfl⟩|
    ⟨rfl,rfl,rfl,rfl,rfl⟩|⟨rfl,rfl,rfl,rfl,rfl⟩|⟨rfl,rfl,rfl,rfl,rfl⟩|⟨rfl,rfl,rfl,rfl,rfl⟩|
    ⟨rfl,rfl,rfl,rfl,rfl⟩|⟨rfl,rfl,rfl,rfl,rfl⟩|⟨rfl,rfl,rfl,rfl,rfl⟩|⟨rfl,rfl,rfl,rfl,rfl⟩|
    ⟨rfl,rfl,rfl,rfl,rfl⟩|⟨rfl,rfl,rfl,rfl,rfl⟩|⟨rfl,rfl,rfl,rfl,rfl⟩|⟨rfl,rfl,rfl,rfl,rfl⟩|
    ⟨rfl,rfl,rfl,rfl,rfl⟩|⟨rfl,rfl,rfl,rfl,rfl⟩|⟨rfl,rfl,rfl,rfl,rfl⟩|⟨rfl,rfl,rfl,rfl,rfl⟩|
    ⟨rfl,rfl,rfl,rfl,rfl⟩|⟨rfl,rfl,rfl,rfl,rfl⟩|⟨rfl,rfl,rfl,rfl,rfl⟩|⟨rfl,rfl,rfl,rfl,rfl⟩|
    ⟨rfl,rfl,rfl,rfl,rfl⟩|⟨rfl,rfl,rfl,rfl,rfl⟩ <;>
  exact ⟨_, rfl, rfl, rfl, endsWithIcon _ _ _ (by decide) (by decide)⟩

/-- `String.append` concatenates the underlying character lists (helper for
C8). -/
theorem strData_append (p t : String) : (p ++ t).data = p.data ++ t.data := by
  cases p
  cases t
  rfl

/-- A prefix test no longer than the left part of an append ignores the
right part (helper for C8). -/
theorem isPrefixOf_append_of_le {α : Type} [BEq α] :
    ∀ (pre l : List α), pre.length ≤ l.length → ∀ t : List α,
      List.isPrefixOf pre (l ++ t) = List.isPrefixOf pre l := by
  intro pre
  induction pre with
  | nil => intro l h t; simp [List.isPrefixOf]
  | cons a as ih =>
    intro l h t
    cases l with
    | nil => simp at h
    | cons b bs =>
      simp only [List.cons_append, List.isPrefixOf, List.append_eq]
      rw [ih bs (by simpa using h) t]

/-- A `startswith` test against a short prefix is decided by the literal
left part of an appended string (helper for C8: the callbacks
`"src:tg:" ++ rowIndex` etc. never start with `"tz:"`). -/
theorem pyStartsWith_append_lit (p t pre : String)
    (hlen : pre.data.length ≤ p.data.length)
    (hp : pyStartsWith p pre = false) :
    pyStartsWith (p ++ t) pre = false := by
  unfold pyStartsWith at hp ⊢
  rw [strData_append, isPrefixOf_append_of_le pre.data p.data hlen t.data]
  exact hp

/-- `OPTION_FIELD_CODES` enumerates the whole domain of `OPTIONS_MAP`
(helper for C8). -/
theorem OPTIONS_MAP_domain {f : String} {l : List (String × String)}
    (h : OPTIONS_MAP f = some l) : f ∈ OPTION_FIELD_CODES := by
  unfold OPTIONS_MAP at h
  split at h <;> first
    | decide
    | exact absurd h (by simp)

/-- The keyboard built by `show_main_menu` contains no control for the
timezone field: no button's callback starts with `"tz:"`, whatever the row
contents and row index (helper for C8). -/
theorem buildMenu_no_tz (rowVals : List String) (rowIndex : Nat) :
    (buildMenu rowVals rowIndex).all
      (fun row => row.all (fun b => !(pyStartsWith b.callback "tz:"))) = true := by
  simp only [buildMenu, List.all_cons, List.all_nil, Bool.and_true, Bool.and_eq_true]
  repeat' apply And.intro
  all_goals first
    | decide
    | (rw [pyStartsWith_append_lit] <;> decide)

/-- C8 (amended): the rendered menu is a pure function of the row read from
the store (two sheets agreeing on the row render identically, hence
rendering the same row twice yields the same menu).  Of the enrichable
fields with an option set (`OPTION_FIELD_CODES` is exactly the domain of
`OPTIONS_MAP`), every field except the timezone field `"tz"` has each of
its options rendered as a toggle button (third conjunct: every non-`tz`
option of `OPTIONS_MAP` appears in `MENU_TOGGLES`; first conjunct: each such
button carries its `field:option:row` callback and shows the selected
marker exactly when the stored cell value, after *trimming surrounding
whitespace*, case-insensitively equals the option's canonical display value
— an empty or unset cell matches no option).  The `"tz"` field, although it
has an option set, is not rendered at all: no button's callback starts with
`"tz:"` (fourth conjunct), so no selected marker is shown for its options
even when the cell holds exactly the canonical value.  (The original claim
states the comparison without the whitespace trim `get_val` performs, and
asserts the marker equivalence for *every* option-set field including the
unrendered `"tz"`; see the two-part counterexample.) -/
theorem menu_render_selection :
    (∀ (rowVals : List String) (rowIndex : Nat) (f o canon : String) (kr kc : Nat),
      (f, o, canon, kr, kc) ∈ MENU_TOGGLES →
      ∃ b : Btn,
        ((buildMenu rowVals rowIndex).getD kr []).get? kc = some b ∧
        b.callback = f ++ ":" ++ o ++ ":" ++ toString rowIndex ∧
        optionsLookup f o = some canon ∧
        (strEndsWith b.label "✅" = true ↔ get_val rowVals f = pyLowerStr canon)) ∧
    (∀ (f : String) (l : List (String × String)),
      OPTIONS_MAP f = some l → f ∈ OPTION_FIELD_CODES) ∧
    (∀ fc ∈ OPTION_FIELD_CODES, fc ≠ "tz" →
      ∀ kv ∈ (OPTIONS_MAP fc).getD [],
        ∃ tg ∈ MENU_TOGGLES, tg.1 = fc ∧ tg.2.1 = kv.1 ∧ tg.2.2.1 = kv.2) ∧
    (∀ (rowVals : List String) (rowIndex : Nat),
      (buildMenu rowVals rowIndex).all
        (fun row => row.all (fun b => !(pyStartsWith b.callback "tz:"))) = true) ∧
    (∀ (fails : FailOracle) (sheet sheet' : Sheet) (rowIndex : Nat),
      sheet.rowVals rowIndex = sheet'.rowVals rowIndex →
      show_main_menu fails sheet rowIndex = show_main_menu fails sheet' rowIndex) :=
  ⟨menu_marker_test,
   fun _ _ h => OPTIONS_MAP_domain h,
   by decide,
   buildMenu_no_tz,
   fun fails sheet sheet' rowIndex h => by simp [show_main_menu, h]⟩

/-- Witness for C8: the `ip_call:yes` button of a row holding `"Да"` in
column 18, the `ip_call` option set's presence and coverage, the tz-free
keyboard of a row holding `"GMT+3"`, and two different sheets agreeing on
row 2. -/
theorem menu_render_selection_witness :
    (("ip_call", "yes", "Да", 6, 0) ∈ MENU_TOGGLES ∧
      ∃ b : Btn,
        ((buildMenu (List.replicate 17 "" ++ ["Да"]) 2).getD 6 []).get? 0 = some b ∧
        b.callback = "ip_call" ++ ":" ++ "yes" ++ ":" ++ toString 2 ∧
        optionsLookup "ip_call" "yes" = some "Да" ∧
        (strEndsWith b.label "✅" = true ↔
          get_val (List.replicate 17 "" ++ ["Да"]) "ip_call" = pyLowerStr "Да")) ∧
    (OPTIONS_MAP "ip_call" = some [("yes", "Да"), ("no", "Нет")] ∧
      "ip_call" ∈ OPTION_FIELD_CODES) ∧
    ("ip_call" ∈ OPTION_FIELD_CODES ∧ ("ip_call" : String) ≠ "tz" ∧
      ("yes", "Да") ∈ (OPTIONS_MAP "ip_call").getD [] ∧
      ∃ tg ∈ MENU_TOGGLES, tg.1 = "ip_call" ∧ tg.2.1 = "yes" ∧ tg.2.2.1 = "Да") ∧
    (buildMenu (List.replicate 13 "" ++ ["GMT+3"]) 2).all
      (fun row => row.all (fun b => !(pyStartsWith b.callback "tz:"))) = true ∧
    ((⟨[["x"], ["y"]]⟩ : Sheet).rowVals 2 = (⟨[["z"], ["y"], ["w"]]⟩ : Sheet).rowVals 2 ∧
      show_main_menu noFail ⟨[["x"], ["y"]]⟩ 2 = show_main_menu noFail ⟨[["z"], ["y"], ["w"]]⟩ 2) := by
  have h := menu_render_selection
  exact ⟨⟨by decide,
      h.1 (List.replicate 17 "" ++ ["Да"]) 2 "ip_call" "yes" "Да" 6 0 (by decide)⟩,
    ⟨rfl, h.2.1 "ip_call" [("yes", "Да"), ("no", "Нет")] rfl⟩,
    ⟨by decide, by decide, by decide,
      h.2.2.1 "ip_call" (by decide) (by decide) ("yes", "Да") (by decide)⟩,
    h.2.2.2.1 (List.replicate 13 "" ++ ["GMT+3"]) 2,
    ⟨by decide, h.2.2.2.2 noFail ⟨[["x"], ["y"]]⟩ ⟨[["z"], ["y"], ["w"]]⟩ 2 (by decide)⟩⟩

/-- Two-part counterexample to C8 as stated.  First, the trim: a stored
cell `" Да"` is not case-insensitively equal to the canonical `"Да"` (the
lowercased strings differ by the leading space), yet the rendered
`ip_call:yes` button shows the selected marker, because `get_val` strips
the cell before comparing.  Second, the unrendered `"tz"` field: with
`"GMT+3"` — exactly the canonical display value of the `tz:gmt3` option —
stored in column 14 (where intake's timezone auto-fill writes), the
rendered menu contains no `tz` control at all, so no selected marker is
shown although the cell equals the canonical value. -/
theorem menu_render_counterexample :
    (∃ (kb : List (List Btn)) (b : Btn),
      show_main_menu noFail ⟨[[], List.replicate 17 "" ++ [" Да"]]⟩ 2 = some kb ∧
      (kb.getD 6 []).get? 0 = some b ∧
      strEndsWith b.label "✅" = true ∧
      pyLowerStr " Да" ≠ pyLowerStr "Да" ∧
      (⟨[[], List.replicate 17 "" ++ [" Да"]]⟩ : Sheet).cellVal 2 18 = " Да") ∧
    (∃ kb : List (List Btn),
      show_main_menu noFail ⟨[[], List.replicate 13 "" ++ ["GMT+3"]]⟩ 2 = some kb ∧
      (⟨[[], List.replicate 13 "" ++ ["GMT+3"]]⟩ : Sheet).cellVal 2 14 = "GMT+3" ∧
      optionsLookup "tz" "gmt3" = some "GMT+3" ∧
      pyLowerStr "GMT+3" = pyLowerStr "GMT+3" ∧
      kb.all (fun row => row.all (fun b => !(pyStartsWith b.callback "tz:"))) = true) := by
  refine ⟨⟨_, _, rfl, rfl, by decide, by decide, by decide⟩,
    ⟨_, rfl, by decide, rfl, rfl, by decide⟩⟩
